import Mathlib

/-!
# darktable, `src/libs/backgroundjobs.c`: the background-job panel

A shallow embedding of the panel module.  The C code manipulates three kinds of
heap objects, which the model keeps in tables indexed by address:

* GTK widgets (`State.widgets`): a widget address is its index in the table and a
  new widget always takes the next free index;
* job elements `dt_lib_backgroundjob_element_t` (`State.elements`): allocated by
  `calloc`, released by `free` (the slot becomes `none`);
* the host objects the module only reads or writes through accessors: the
  `dt_lib_module_t` (its `widget` field) and the `dt_progress_t` objects.

A C pointer is an `Option Nat` (`none` is `NULL`).  A `double` is modelled as a
rational number (rounding and NaN play no part in what is proved).  Functions
handed to `g_main_context_invoke` are kept, with their parameter block, in the
queue `State.pending` until the main loop runs them.  Layout-only arguments
(packing flags, alignment, size requests) have no counterpart in the model, and
a widget removed from its container stays in the table without a parent (its
disposal when the last reference is dropped is not modelled).  The mutex of the
progress system is taken and released around code that the model runs
atomically; it has no counterpart either.  Dereferencing an element pointer
that is `NULL` or freed is undefined behaviour: the callbacks that do so return
`none`.
-/

namespace Backgroundjobs

/-! ## Data model -/

/-- GTK orientation of a box. -/
inductive GtkOrientation
  | HORIZONTAL
  | VERTICAL
  deriving DecidableEq, Repr

/-- The widget classes that the module creates. -/
inductive WidgetKind
  | box (orientation : GtkOrientation) (spacing : Nat)
  | event_box
  | label (text : String)
  | progress_bar
  | button
  deriving DecidableEq, Repr

/-- The part of a GTK widget that the module reads or writes.  `clicked` lists the
user data of the handlers connected to the "clicked" signal, in connection order
(the only handler the module ever connects is
`_lib_backgroundjobs_cancel_callback_new`). -/
structure GtkWidget where
  kind : WidgetKind
  name : Option String
  parent : Option Nat
  children : List Nat
  visible : Bool
  no_show_all : Bool
  border_width : Nat
  fraction : Rat
  clicked : List Nat
  deriving DecidableEq, Repr

/-- The struct `dt_lib_backgroundjob_element_t` (source lines 34-37). -/
structure dt_lib_backgroundjob_element_t where
  widget : Option Nat
  progressbar : Option Nat
  hbox : Option Nat
  deriving DecidableEq, Repr

/-- Modelled from the spec: the struct `dt_progress_t` of control/progress.h is not
among the sources; these are the fields that the accessors used by `gui_init`
read or write (progress value, message, progress-bar flag, whether a cancel
callback is set, and the gui_data pointer). -/
structure dt_progress_t where
  progress : Rat
  message : String
  has_progress_bar : Bool
  cancellable : Bool
  gui_data : Option Nat
  deriving DecidableEq, Repr

/-- The four proxy handlers of this module, as function-pointer values. -/
inductive ProxyFn
  | _lib_backgroundjobs_added
  | _lib_backgroundjobs_destroyed
  | _lib_backgroundjobs_cancellable
  | _lib_backgroundjobs_updated
  deriving DecidableEq, Repr

/-- The five fields `darktable.control->progress_system.proxy.*`. -/
structure progress_proxy_t where
  module : Option Nat
  added : Option ProxyFn
  destroyed : Option ProxyFn
  cancellable : Option ProxyFn
  updated : Option ProxyFn
  deriving DecidableEq, Repr

/-- A function handed to `g_main_context_invoke` together with its parameter
block (`_added_gui_thread_t`, `_destroyed_gui_thread_t`,
`_cancellable_gui_thread_t`, `_update_gui_thread_t`).  The block is owned by the
callback, which frees it, so it is carried by value. -/
inductive Callback
  | _added_gui_thread (self_widget instance_widget : Option Nat)
  | _destroyed_gui_thread (self : Nat) (inst : Option Nat)
  | _cancellable_gui_thread (inst : Option Nat) (progress : Nat)
  | _update_gui_thread (inst : Option Nat) (value : Rat)
  deriving DecidableEq, Repr

/-- The program state seen by the module. -/
structure State where
  /-- the GTK widgets, by address -/
  widgets : List GtkWidget
  /-- the job elements, by address; `none` is a freed block -/
  elements : List (Option dt_lib_backgroundjob_element_t)
  /-- the field `widget` of each `dt_lib_module_t` -/
  module_widget : Nat → Option Nat
  /-- the flag `darktable.control->running` -/
  running : Bool
  /-- the `dt_progress_t` objects, by address -/
  progress : Nat → dt_progress_t
  /-- the list `darktable.control->progress_system.list` -/
  list : List Nat
  /-- the record `darktable.control->progress_system.proxy` -/
  proxy : progress_proxy_t
  /-- callbacks handed to the main context and not run yet -/
  pending : List Callback
  /-- outcomes of the coming `malloc`/`calloc` calls (`true`: the block is
  obtained); past the end of the list every allocation succeeds -/
  malloc_results : List Bool
  /-- the progress objects `dt_control_progress_cancel` was called on, in call order -/
  cancelled : List Nat

/-! ## Heap primitives -/

/-- A widget as `g_object_new` leaves it: no parent, no child, hidden. -/
def GtkWidget.create (kind : WidgetKind) : GtkWidget :=
  { kind := kind, name := none, parent := none, children := [], visible := false,
    no_show_all := false, border_width := 0, fraction := 0, clicked := [] }

/-- Allocate a widget of the given class; its address is the next free index of
the widget table. -/
def g_object_new (ws : List GtkWidget) (kind : WidgetKind) : List GtkWidget × Nat :=
  (ws ++ [GtkWidget.create kind], ws.length)

/-- The widget a pointer refers to, if any. -/
def State.widget (st : State) (w : Option Nat) : Option GtkWidget :=
  match w with
  | none => none
  | some i => st.widgets[i]?

/-- The element a pointer refers to: `none` for `NULL`, for an address never
allocated and for a freed block. -/
def State.element (st : State) (p : Option Nat) : Option dt_lib_backgroundjob_element_t :=
  match p with
  | none => none
  | some i => (st.elements[i]?).join

/-- One `malloc` of a parameter block: consumes the next outcome. -/
def malloc (st : State) : State × Bool :=
  ({ st with malloc_results := st.malloc_results.tail }, st.malloc_results.headD true)

/-- The call `calloc(1, sizeof(dt_lib_backgroundjob_element_t))`: on success a
zeroed element at the next free address. -/
def calloc (st : State) : State × Option Nat :=
  if st.malloc_results.headD true then
    ({ st with malloc_results := st.malloc_results.tail,
               elements := st.elements ++
                 [some { widget := none, progressbar := none, hbox := none }] },
     some st.elements.length)
  else
    ({ st with malloc_results := st.malloc_results.tail }, none)

/-- The call `free(p)` on an element pointer; `free(NULL)` does nothing. -/
def free (st : State) (p : Option Nat) : State :=
  match p with
  | none => st
  | some i => { st with elements := st.elements.set i none }

/-- Write the fields of the element at address `i`. -/
def State.modify_element (st : State) (i : Nat)
    (f : dt_lib_backgroundjob_element_t → dt_lib_backgroundjob_element_t) : State :=
  { st with elements := st.elements.modify (Option.map f) i }

/-! ## The GTK calls used by the module

GTK only knows the widget table, so each call is a function on `List GtkWidget`.
Each follows the GTK 3 implementation on the fields of the model, including the
`g_return_if_fail` guards (a failed guard prints a warning and returns). -/

def WidgetKind.is_box : WidgetKind → Bool
  | .box _ _ => true
  | _ => false

/-- The classes derived from `GtkBin` (a container with at most one child). -/
def WidgetKind.is_bin : WidgetKind → Bool
  | .event_box => true
  | .button => true
  | _ => false

def WidgetKind.is_progress_bar : WidgetKind → Bool
  | .progress_bar => true
  | _ => false

/-- Update the widget a pointer refers to (nothing happens on `NULL` or on an
address that holds no widget). -/
def modify_widget (ws : List GtkWidget) (w : Option Nat) (f : GtkWidget → GtkWidget) :
    List GtkWidget :=
  match w with
  | none => ws
  | some i => ws.modify f i

def GTK_IS_WIDGET (ws : List GtkWidget) (w : Option Nat) : Bool :=
  match w with
  | none => false
  | some i => (ws[i]?).isSome

def gtk_box_new (ws : List GtkWidget) (orientation : GtkOrientation) (spacing : Nat) :
    List GtkWidget × Nat :=
  g_object_new ws (.box orientation spacing)

def gtk_event_box_new (ws : List GtkWidget) : List GtkWidget × Nat :=
  g_object_new ws .event_box

def gtk_label_new (ws : List GtkWidget) (str : String) : List GtkWidget × Nat :=
  g_object_new ws (.label str)

def gtk_progress_bar_new (ws : List GtkWidget) : List GtkWidget × Nat :=
  g_object_new ws .progress_bar

/-- Modelled from the spec: `dtgtk_button_new` of dtgtk/button.c is not among the
sources; it creates the (cancel) button widget of a job entry. -/
def dtgtk_button_new (ws : List GtkWidget) : List GtkWidget × Nat :=
  g_object_new ws .button

def gtk_widget_set_no_show_all (ws : List GtkWidget) (w : Option Nat) (b : Bool) :
    List GtkWidget :=
  modify_widget ws w (fun x => { x with no_show_all := b })

def gtk_container_set_border_width (ws : List GtkWidget) (w : Option Nat) (n : Nat) :
    List GtkWidget :=
  modify_widget ws w (fun x => { x with border_width := n })

def gtk_widget_set_name (ws : List GtkWidget) (w : Option Nat) (s : String) : List GtkWidget :=
  modify_widget ws w (fun x => { x with name := some s })

def gtk_widget_show (ws : List GtkWidget) (w : Option Nat) : List GtkWidget :=
  modify_widget ws w (fun x => { x with visible := true })

def gtk_widget_hide (ws : List GtkWidget) (w : Option Nat) : List GtkWidget :=
  modify_widget ws w (fun x => { x with visible := false })

def gtk_widget_get_visible (ws : List GtkWidget) (w : Option Nat) : Bool :=
  match w with
  | none => false
  | some i =>
    match ws[i]? with
    | none => false
    | some x => x.visible

/-- The children of a container; `NULL` (the empty list) when the pointer is
not a widget. -/
def gtk_container_get_children (ws : List GtkWidget) (w : Option Nat) : List Nat :=
  match w with
  | none => []
  | some i =>
    match ws[i]? with
    | none => []
    | some x => x.children

/-- The call `gtk_box_pack_start(box, child, ...)`: the child must be a widget
without a parent; it is appended to the children of the box. -/
def gtk_box_pack_start (ws : List GtkWidget) (box child : Option Nat) : List GtkWidget :=
  match box, child with
  | some b, some c =>
    match ws[b]?, ws[c]? with
    | some bw, some cw =>
      if bw.kind.is_box = true ∧ cw.parent = none ∧ b ≠ c then
        (ws.modify (fun x => { x with children := x.children ++ [c] }) b).modify
          (fun x => { x with parent := some b }) c
      else ws
    | _, _ => ws
  | _, _ => ws

/-- The call `gtk_container_add(container, widget)`: on a box it is
`gtk_box_pack_start`; on a bin the child is accepted only if the bin is empty. -/
def gtk_container_add (ws : List GtkWidget) (container child : Option Nat) : List GtkWidget :=
  match container, child with
  | some b, some c =>
    match ws[b]?, ws[c]? with
    | some bw, some cw =>
      if bw.kind.is_box = true then gtk_box_pack_start ws container child
      else if bw.kind.is_bin = true ∧ bw.children = [] ∧ cw.parent = none ∧ b ≠ c then
        (ws.modify (fun x => { x with children := [c] }) b).modify
          (fun x => { x with parent := some b }) c
      else ws
    | _, _ => ws
  | _, _ => ws

/-- The list operation of `gtk_box_reorder_child`: the child is unlinked and
linked again before the element at `position` of the remaining list (at the end
if there is none); nothing happens if it already is at `position`. -/
def reorder (children : List Nat) (c : Nat) (position : Nat) : List Nat :=
  if c ∈ children then
    if children.indexOf c = position then children
    else (children.erase c).take position ++ c :: (children.erase c).drop position
  else children

def gtk_box_reorder_child (ws : List GtkWidget) (box child : Option Nat) (position : Nat) :
    List GtkWidget :=
  match box, child with
  | some b, some c =>
    match ws[b]? with
    | some bw =>
      if bw.kind.is_box = true then
        ws.modify (fun x => { x with children := reorder x.children c position }) b
      else ws
    | none => ws
  | _, _ => ws

/-- The call `gtk_container_remove(container, widget)`: the widget must be a
child of the container; it is unlinked and loses its parent. -/
def gtk_container_remove (ws : List GtkWidget) (container w : Option Nat) : List GtkWidget :=
  match container, w with
  | some b, some c =>
    match ws[b]?, ws[c]? with
    | some _, some cw =>
      if cw.parent = some b ∧ b ≠ c then
        (ws.modify (fun x => { x with children := x.children.erase c }) b).modify
          (fun x => { x with parent := none }) c
      else ws
    | _, _ => ws
  | _, _ => ws

/-- The recursion of `gtk_widget_show_all` on the widget table: a widget with
`no_show_all` is skipped, otherwise its children are shown recursively and then
the widget itself.  `fuel` bounds the depth of the recursion. -/
def show_all : Nat → List GtkWidget → Nat → List GtkWidget
  | 0, ws, _ => ws
  | fuel + 1, ws, w =>
    match ws[w]? with
    | none => ws
    | some x =>
      if x.no_show_all then ws
      else
        (x.children.foldl (fun acc c => show_all fuel acc c) ws).modify
          (fun y => { y with visible := true }) w

/-- The call `gtk_widget_show_all(w)`; a widget tree is never deeper than the
number of widgets. -/
def gtk_widget_show_all (ws : List GtkWidget) (w : Option Nat) : List GtkWidget :=
  match w with
  | none => ws
  | some i => show_all (ws.length + 1) ws i

/-- The call `gtk_progress_bar_set_fraction(pbar, fraction)`; nothing happens
when `pbar` is not a progress bar. -/
def gtk_progress_bar_set_fraction (ws : List GtkWidget) (pbar : Option Nat) (fraction : Rat) :
    List GtkWidget :=
  match pbar with
  | none => ws
  | some i =>
    match ws[i]? with
    | some x =>
      if x.kind.is_progress_bar = true then ws.modify (fun y => { y with fraction := fraction }) i
      else ws
    | none => ws

/-- The call `g_signal_connect(button, "clicked", handler, user_data)`. -/
def g_signal_connect_clicked (ws : List GtkWidget) (w : Option Nat) (user_data : Nat) :
    List GtkWidget :=
  modify_widget ws w (fun x => { x with clicked := x.clicked ++ [user_data] })

/-- The macro `CLAMP(x, low, high)` of GLib. -/
def CLAMP (x low high : Rat) : Rat :=
  if x > high then high else if x < low then low else x

/-- The call `g_main_context_invoke(NULL, function, data)` made from a worker
thread: the function is handed to the main context, which runs it later.  (When
the caller owns the main context GLib runs the function at once; that is this
call followed by the dispatch of the function.) -/
def g_main_context_invoke (st : State) (cb : Callback) : State :=
  { st with pending := st.pending ++ [cb] }

/-! ## The progress system of the host (control/progress.c) -/

/-- Modelled from the spec: `dt_control_progress_get_gui_data` of control/progress.c
is not among the sources; it returns the gui_data of the progress object. -/
def dt_control_progress_get_gui_data (st : State) (progress : Nat) : Option Nat :=
  (st.progress progress).gui_data

/-- Modelled from the spec: `dt_control_progress_set_gui_data` of control/progress.c
is not among the sources; it stores the gui_data of the progress object. -/
def dt_control_progress_set_gui_data (st : State) (progress : Nat) (data : Option Nat) : State :=
  { st with progress :=
      Function.update st.progress progress { st.progress progress with gui_data := data } }

/-- Modelled from the spec: `dt_control_progress_has_progress_bar` of
control/progress.c is not among the sources; it returns the has_progress_bar
flag of the progress object. -/
def dt_control_progress_has_progress_bar (st : State) (progress : Nat) : Bool :=
  (st.progress progress).has_progress_bar

/-- Modelled from the spec: `dt_control_progress_get_message` of control/progress.c
is not among the sources; it returns the message of the progress object. -/
def dt_control_progress_get_message (st : State) (progress : Nat) : String :=
  (st.progress progress).message

/-- Modelled from the spec: `dt_control_progress_cancellable` of control/progress.c
is not among the sources; it tells whether the progress object is cancellable. -/
def dt_control_progress_cancellable (st : State) (progress : Nat) : Bool :=
  (st.progress progress).cancellable

/-- Modelled from the spec: `dt_control_progress_get_progress` of control/progress.c
is not among the sources; it returns the current value of the progress object. -/
def dt_control_progress_get_progress (st : State) (progress : Nat) : Rat :=
  (st.progress progress).progress

/-- Modelled from the spec: `dt_control_progress_cancel` of control/progress.c is
not among the sources; the call is recorded in `State.cancelled` with the
progress object it is made on. -/
def dt_control_progress_cancel (st : State) (progress : Nat) : State :=
  { st with cancelled := st.cancelled ++ [progress] }

/-! ## The module (src/libs/backgroundjobs.c) -/

/-- Source lines 127-139.  The returned flag is the `gboolean` result. -/
def _added_gui_thread (st : State) (self_widget instance_widget : Option Nat) : State × Bool :=
  let st := { st with widgets := gtk_box_pack_start st.widgets self_widget instance_widget }
  let st := { st with widgets := gtk_box_reorder_child st.widgets self_widget instance_widget 1 }
  let st := { st with widgets := gtk_widget_show_all st.widgets instance_widget }
  let st := { st with widgets := gtk_widget_show st.widgets self_widget }
  (st, false)

/-- Source lines 141-183.  Returns the state and the element pointer (`NULL` when
an allocation fails).  The widgets are referred to by the local values that the
C code has just stored in the element. -/
def _lib_backgroundjobs_added (st : State) (self : Nat) (has_progress_bar : Bool)
    (message : String) : State × Option Nat :=
  match calloc st with
  | (st, none) => (st, none)
  | (st, some inst) =>
    match malloc st with
    | (st, false) => (free st (some inst), none)
    | (st, true) =>
      let (ws, widget) := gtk_event_box_new st.widgets
      let st := { st with widgets := ws }
      let st := st.modify_element inst (fun e => { e with widget := some widget })
      let st := { st with widgets :=
        gtk_widget_set_name st.widgets (some widget) "background_job_eventbox" }
      let (ws, vbox) := gtk_box_new st.widgets .VERTICAL 0
      let st := { st with widgets := ws }
      let (ws, hbox) := gtk_box_new st.widgets .HORIZONTAL 0
      let st := { st with widgets := ws }
      let st := st.modify_element inst (fun e => { e with hbox := some hbox })
      let st := { st with widgets := gtk_container_set_border_width st.widgets (some vbox) 2 }
      let st := { st with widgets := gtk_container_add st.widgets (some widget) (some vbox) }
      let (ws, label) := gtk_label_new st.widgets message
      let st := { st with widgets := ws }
      let st := { st with widgets := gtk_box_pack_start st.widgets (some hbox) (some label) }
      let st := { st with widgets := gtk_box_pack_start st.widgets (some vbox) (some hbox) }
      let st :=
        if has_progress_bar then
          let (ws, progressbar) := gtk_progress_bar_new st.widgets
          let st := { st with widgets := ws }
          let st := st.modify_element inst (fun e => { e with progressbar := some progressbar })
          { st with widgets := gtk_box_pack_start st.widgets (some vbox) (some progressbar) }
        else st
      let st := g_main_context_invoke st (._added_gui_thread (st.module_widget self) (some widget))
      (st, some inst)

/-- Source lines 191-208.  Reading the fields of `params->instance` needs a live
element: the result is `none` (undefined behaviour) otherwise. -/
def _destroyed_gui_thread (st : State) (self : Nat) (inst : Option Nat) : Option (State × Bool) :=
  match inst, st.element inst with
  | some i, some e =>
    let st :=
      if e.widget ≠ none ∧ GTK_IS_WIDGET st.widgets e.widget = true then
        { st with widgets := gtk_container_remove st.widgets (st.module_widget self) e.widget }
      else st
    let st := st.modify_element i (fun e => { e with widget := none })
    let st :=
      if (gtk_container_get_children st.widgets (st.module_widget self)).length = 0 then
        { st with widgets := gtk_widget_hide st.widgets (st.module_widget self) }
      else st
    let st := free st inst
    some (st, false)
  | _, _ => none

/-- Source lines 211-218. -/
def _lib_backgroundjobs_destroyed (st : State) (self : Nat) (inst : Option Nat) : State :=
  match malloc st with
  | (st, false) => st
  | (st, true) => g_main_context_invoke st (._destroyed_gui_thread self inst)

/-- Source lines 220-224: the handler connected to the "clicked" signal. -/
def _lib_backgroundjobs_cancel_callback_new (st : State) (user_data : Nat) : State :=
  dt_control_progress_cancel st user_data

/-- Emission of the "clicked" signal of a widget: the connected handlers run in
connection order, each with its own user data. -/
def gtk_button_clicked (st : State) (w : Option Nat) : State :=
  match st.widget w with
  | none => st
  | some x => x.clicked.foldl _lib_backgroundjobs_cancel_callback_new st

/-- Source lines 232-245.  Reading `params->instance->hbox` needs a live element. -/
def _cancellable_gui_thread (st : State) (inst : Option Nat) (progress : Nat) :
    Option (State × Bool) :=
  match st.element inst with
  | none => none
  | some e =>
    let hbox := e.hbox
    let (ws, button) := dtgtk_button_new st.widgets
    let ws := g_signal_connect_clicked ws (some button) progress
    let ws := gtk_box_pack_start ws hbox (some button)
    let ws := gtk_widget_show_all ws (some button)
    some ({ st with widgets := ws }, false)

/-- Source lines 247-259. -/
def _lib_backgroundjobs_cancellable (st : State) (_self : Nat) (inst : Option Nat)
    (progress : Nat) : State :=
  if !st.running then st
  else
    match malloc st with
    | (st, false) => st
    | (st, true) => g_main_context_invoke st (._cancellable_gui_thread inst progress)

/-- Source lines 267-275.  Reading `params->instance->progressbar` needs a live
element. -/
def _update_gui_thread (st : State) (inst : Option Nat) (value : Rat) : Option (State × Bool) :=
  match st.element inst with
  | none => none
  | some e =>
    some ({ st with widgets :=
              gtk_progress_bar_set_fraction st.widgets e.progressbar (CLAMP value 0 1) }, false)

/-- Source lines 277-288. -/
def _lib_backgroundjobs_updated (st : State) (_self : Nat) (inst : Option Nat)
    (value : Rat) : State :=
  if !st.running then st
  else
    match malloc st with
    | (st, false) => st
    | (st, true) => g_main_context_invoke st (._update_gui_thread inst value)

/-- The loop of `gui_init` (source lines 91-103) over the entries of the progress
list. -/
def gui_init_loop (self : Nat) : List Nat → State → State
  | [], st => st
  | progress :: iter, st =>
    let gui_data := dt_control_progress_get_gui_data st progress
    let st := free st gui_data
    let (st, gui_data) := _lib_backgroundjobs_added st self
      (dt_control_progress_has_progress_bar st progress)
      (dt_control_progress_get_message st progress)
    let st := dt_control_progress_set_gui_data st progress gui_data
    let st :=
      if dt_control_progress_cancellable st progress then
        _lib_backgroundjobs_cancellable st self gui_data progress
      else st
    let st := _lib_backgroundjobs_updated st self gui_data
      (dt_control_progress_get_progress st progress)
    gui_init_loop self iter st

/-- Source lines 73-106. -/
def gui_init (st : State) (self : Nat) : State :=
  let (ws, widget) := gtk_box_new st.widgets .VERTICAL 0
  let st := { st with widgets := ws,
                      module_widget := Function.update st.module_widget self (some widget) }
  let st := { st with widgets := gtk_widget_set_no_show_all st.widgets (st.module_widget self) true }
  let st := { st with widgets := gtk_container_set_border_width st.widgets (st.module_widget self) 5 }
  let st := { st with proxy :=
    { module := some self,
      added := some ._lib_backgroundjobs_added,
      destroyed := some ._lib_backgroundjobs_destroyed,
      cancellable := some ._lib_backgroundjobs_cancellable,
      updated := some ._lib_backgroundjobs_updated } }
  gui_init_loop self st.list st

/-- Source lines 108-118. -/
def gui_cleanup (st : State) (_self : Nat) : State :=
  { st with proxy :=
    { module := none, added := none, destroyed := none, cancellable := none, updated := none } }

/-! ## The main loop -/

/-- Run a callback with its parameter block. -/
def run_callback (cb : Callback) (st : State) : Option (State × Bool) :=
  match cb with
  | ._added_gui_thread self_widget instance_widget =>
    some (_added_gui_thread st self_widget instance_widget)
  | ._destroyed_gui_thread self inst => _destroyed_gui_thread st self inst
  | ._cancellable_gui_thread inst progress => _cancellable_gui_thread st inst progress
  | ._update_gui_thread inst value => _update_gui_thread st inst value

/-- One dispatch of the main context: the oldest pending callback runs and is
dropped when it returns `FALSE` (it is called again later when it returns
`TRUE`).  Nothing happens when no callback is pending. -/
def g_main_context_iteration (st : State) : Option State :=
  match st.pending with
  | [] => some st
  | cb :: rest =>
    match run_callback cb { st with pending := rest } with
    | none => none
    | some (st, again) =>
      some (if again then { st with pending := st.pending ++ [cb] } else st)

/-- The state before the module is loaded: no widget, no element, no progress. -/
def State.empty : State :=
  { widgets := [], elements := [], module_widget := fun _ => none, running := true,
    progress := fun _ =>
      { progress := 0, message := "", has_progress_bar := false, cancellable := false,
        gui_data := none },
    list := [], proxy :=
      { module := none, added := none, destroyed := none, cancellable := none, updated := none },
    pending := [], malloc_results := [], cancelled := [] }

/-! ## Vocabulary of the properties -/

/-- The widgets that `_lib_backgroundjobs_added` creates for a job entry, as they
are once assembled: event box `n`, vertical box `n + 1`, horizontal box `n + 2`,
label `n + 3` and, with a progress bar, that bar at `n + 4`. -/
def job_widgets (n : Nat) (has_progress_bar : Bool) (message : String) : List GtkWidget :=
  [ { GtkWidget.create .event_box with
        name := some "background_job_eventbox", children := [n + 1] },
    { GtkWidget.create (.box .VERTICAL 0) with
        parent := some n, border_width := 2,
        children := if has_progress_bar then [n + 2, n + 4] else [n + 2] },
    { GtkWidget.create (.box .HORIZONTAL 0) with parent := some (n + 1), children := [n + 3] },
    { GtkWidget.create (.label message) with parent := some (n + 2) } ] ++
  if has_progress_bar then [{ GtkWidget.create .progress_bar with parent := some (n + 1) }] else []

/-- The state that `_lib_backgroundjobs_added` leaves when both allocations
succeed. -/
def added_state (st : State) (self : Nat) (has_progress_bar : Bool) (message : String) : State :=
  { st with
    widgets := st.widgets ++ job_widgets st.widgets.length has_progress_bar message,
    elements := st.elements ++
      [some { widget := some st.widgets.length,
              progressbar := if has_progress_bar then some (st.widgets.length + 4) else none,
              hbox := some (st.widgets.length + 2) }],
    pending := st.pending ++ [._added_gui_thread (st.module_widget self) (some st.widgets.length)],
    malloc_results := st.malloc_results.tail.tail }

/-- Whether pointer `w` refers to a widget of class `k`. -/
def has_kind (ws : List GtkWidget) (w : Option Nat) (k : WidgetKind) : Bool :=
  match w with
  | none => false
  | some i =>
    match ws[i]? with
    | none => false
    | some x => decide (x.kind = k)

/-- Whether pointer `hbox` refers to a horizontal box one of whose children is a
label with the given text. -/
def holds_label (ws : List GtkWidget) (hbox : Option Nat) (message : String) : Bool :=
  has_kind ws hbox (.box .HORIZONTAL 0) &&
    (gtk_container_get_children ws hbox).any (fun l => has_kind ws (some l) (.label message))

/-- The element pointer that a callback dereferences when it runs, if any. -/
def callback_element : Callback → Option (Option Nat)
  | ._added_gui_thread _ _ => none
  | ._destroyed_gui_thread _ inst => some inst
  | ._cancellable_gui_thread inst _ => some inst
  | ._update_gui_thread inst _ => some inst

/-- A callback is one-shot: whenever it runs it returns `FALSE`, so the main
context calls it once and drops it; and it does run to its end on every state
in which the element it dereferences (if any) is live. -/
def one_shot (cb : Callback) : Prop :=
  (∀ s r, run_callback cb s = some r → r.2 = false) ∧
  (∀ s, (∀ inst, callback_element cb = some inst → (State.element s inst).isSome = true) →
    (run_callback cb s).isSome = true)

/-- The footprint claimed for a proxy function taking `st` to `st'`: every widget
and every element that exists in `st` is left as it is (so are the panel
pointers, the progress system and the record of cancel calls), and the pending
queue grows by at most one callback, which is one-shot. -/
def only_hands_callback (st st' : State) : Prop :=
  (∀ i, i < st.widgets.length → st'.widgets[i]? = st.widgets[i]?) ∧
  (∀ i, i < st.elements.length → st'.elements[i]? = st.elements[i]?) ∧
  st'.module_widget = st.module_widget ∧
  st'.progress = st.progress ∧ st'.list = st.list ∧ st'.proxy = st.proxy ∧
  st'.running = st.running ∧ st'.cancelled = st.cancelled ∧
  ∃ cbs, st'.pending = st.pending ++ cbs ∧ cbs.length ≤ 1 ∧ ∀ cb ∈ cbs, one_shot cb

/-- A call of one of the two lifecycle entry points of the module. -/
inductive LifecycleCall
  | init (self : Nat)
  | cleanup (self : Nat)
  deriving DecidableEq, Repr

def run_lifecycle_call (st : State) : LifecycleCall → State
  | .init self => gui_init st self
  | .cleanup self => gui_cleanup st self

/-- A sequence of `gui_init` and `gui_cleanup` calls, first call first. -/
def run_lifecycle (st : State) (calls : List LifecycleCall) : State :=
  calls.foldl run_lifecycle_call st

/-- All five proxy fields `NULL`. -/
def proxy_null : progress_proxy_t :=
  { module := none, added := none, destroyed := none, cancellable := none, updated := none }

/-- All five proxy fields set: the module is `self` and the four callbacks are the
four handlers of this module. -/
def proxy_installed (self : Nat) : progress_proxy_t :=
  { module := some self,
    added := some ._lib_backgroundjobs_added,
    destroyed := some ._lib_backgroundjobs_destroyed,
    cancellable := some ._lib_backgroundjobs_cancellable,
    updated := some ._lib_backgroundjobs_updated }

/-- A state with one job entry shown: the module is initialised on the empty
state, one job with a progress bar is added and its callback has run. -/
def one_job_state : State :=
  (g_main_context_iteration
    (_lib_backgroundjobs_added (gui_init State.empty 0) 0 true "export").1).getD State.empty

/-- The state `one_job_state` when the next allocation fails. -/
def one_job_oom_state : State :=
  { one_job_state with malloc_results := [false] }

/-- The cancel button as `_cancellable_gui_thread` leaves it: connected to the
progress object, child of the hbox `h`, shown. -/
def cancel_button (h progress : Nat) : GtkWidget :=
  { GtkWidget.create .button with clicked := [progress], parent := some h, visible := true }

/-- The widget table after a cancel button has been added to the box `h`. -/
def with_cancel_button (ws : List GtkWidget) (h progress : Nat) : List GtkWidget :=
  ws.modify (fun x => { x with children := x.children ++ [ws.length] }) h ++
    [cancel_button h progress]

/-- What the host and the main loop do once the module is initialised: a worker
thread calls one of the four proxy functions, or the main context dispatches
the oldest pending callback. -/
inductive Event
  | added (has_progress_bar : Bool) (message : String)
  | destroyed (inst : Option Nat)
  | cancellable (inst : Option Nat) (progress : Nat)
  | updated (inst : Option Nat) (value : Rat)
  | dispatch
  deriving DecidableEq, Repr

/-- One event; `none` when a dispatched callback dereferences an element that is
not live. -/
def step (self : Nat) (st : State) : Event → Option State
  | .added has_progress_bar message =>
    some (_lib_backgroundjobs_added st self has_progress_bar message).1
  | .destroyed inst => some (_lib_backgroundjobs_destroyed st self inst)
  | .cancellable inst progress => some (_lib_backgroundjobs_cancellable st self inst progress)
  | .updated inst value => some (_lib_backgroundjobs_updated st self inst value)
  | .dispatch => g_main_context_iteration st

/-- A sequence of events, first event first. -/
def run (self : Nat) : State → List Event → Option State
  | st, [] => some st
  | st, ev :: evs =>
    match step self st ev with
    | none => none
    | some st' => run self st' evs

/-- The visibility flag of the panel widget `self->widget`. -/
def panel_visible (st : State) (self : Nat) : Bool :=
  gtk_widget_get_visible st.widgets (st.module_widget self)

/-- The job widgets held by the panel widget `self->widget`. -/
def panel_children (st : State) (self : Nat) : List Nat :=
  gtk_container_get_children st.widgets (st.module_widget self)

/-- The widgets that the pending `_added_gui_thread` callbacks will pack. -/
def add_widgets (l : List Callback) : List (Option Nat) :=
  l.filterMap (fun cb =>
    match cb with
    | ._added_gui_thread _ iw => some iw
    | _ => none)

/-- A widget with its visibility flag masked. -/
def unvis (x : GtkWidget) : GtkWidget :=
  { x with visible := false }

/-- The invariant that makes the panel of module `lib`, at address `panel`,
visible exactly when it has children.  Besides the panel itself it speaks of
the elements (no hbox is the panel) and of the pending add callbacks (each is for
this panel and packs a widget of its own that has no parent yet; each pending
destroy callback is for this module). -/
structure PanelInv (lib panel : Nat) (st : State) : Prop where
  h_module : st.module_widget lib = some panel
  h_panel : ∃ pw, st.widgets[panel]? = some pw ∧ pw.kind.is_box = true ∧ pw.parent = none ∧
    (pw.visible = true ↔ pw.children ≠ [])
  h_hbox : ∀ (i : Nat) (e : dt_lib_backgroundjob_element_t),
    st.elements[i]? = some (some e) → e.hbox ≠ some panel
  h_adds : ∀ sw iw, Callback._added_gui_thread sw iw ∈ st.pending →
    sw = some panel ∧
      ∃ w ww, iw = some w ∧ w ≠ panel ∧ st.widgets[w]? = some ww ∧ ww.parent = none
  h_distinct : (add_widgets st.pending).Nodup
  h_destroys : ∀ s inst, Callback._destroyed_gui_thread s inst ∈ st.pending → s = lib

/-- Widgets without a parent keep existing without a parent, except possibly the
widget `c`. -/
def KeepsOrphans (c : Option Nat) (ws ws' : List GtkWidget) : Prop :=
  ∀ i x, some i ≠ c → ws[i]? = some x → x.parent = none →
    ∃ x', ws'[i]? = some x' ∧ x'.parent = none

/-- The widget table after `_destroyed_gui_thread` has run for an element whose
`widget` field is `w`, on the panel `container`. -/
def destroyed_widgets (ws : List GtkWidget) (container w : Option Nat) : List GtkWidget :=
  let ws1 :=
    if w ≠ none ∧ GTK_IS_WIDGET ws w = true then gtk_container_remove ws container w else ws
  if (gtk_container_get_children ws1 container).length = 0 then gtk_widget_hide ws1 container
  else ws1

/-- The panel widget as `gui_init` creates it: a vertical box, hidden, without
children, excluded from `gtk_widget_show_all`, with a border of 5. -/
def panel_widget : GtkWidget :=
  { GtkWidget.create (.box .VERTICAL 0) with no_show_all := true, border_width := 5 }

/-- Every widget of `st` is still there, unchanged, in `st'`, and the panel
pointers are the same. -/
def WidgetsKept (st st' : State) : Prop :=
  (∀ (i : Nat) (x : GtkWidget), st.widgets[i]? = some x → st'.widgets[i]? = some x) ∧
  st'.module_widget = st.module_widget

/-- The events that show one job: the host adds a job with a progress bar and
the main context runs its callback. -/
def show_one_job : List Event :=
  [.added true "export", .dispatch]

/-- The state reached from the empty state by `gui_init` and `show_one_job`. -/
def shown_state : State :=
  (run 0 (gui_init State.empty 0) show_one_job).getD State.empty

/-- The body of the loop of `gui_init` for one entry of the progress list. -/
def gui_init_step (self : Nat) (st : State) (progress : Nat) : State :=
  let gui_data := dt_control_progress_get_gui_data st progress
  let st := free st gui_data
  let (st, gui_data) := _lib_backgroundjobs_added st self
    (dt_control_progress_has_progress_bar st progress)
    (dt_control_progress_get_message st progress)
  let st := dt_control_progress_set_gui_data st progress gui_data
  let st :=
    if dt_control_progress_cancellable st progress then
      _lib_backgroundjobs_cancellable st self gui_data progress
    else st
  _lib_backgroundjobs_updated st self gui_data (dt_control_progress_get_progress st progress)

/-- The callbacks that one entry of the progress list makes `gui_init` hand to the
main context when every allocation succeeds: the add callback of the new entry
widget `w`, then, only if the control is running, the cancel-button callback
(if the progress is cancellable) and the update callback with the current
value, both for the new element `e`. -/
def job_callbacks (panel : Option Nat) (running : Bool) (pr : dt_progress_t) (p e w : Nat) :
    List Callback :=
  [Callback._added_gui_thread panel (some w)] ++
  (if running && pr.cancellable then [Callback._cancellable_gui_thread (some e) p] else []) ++
  (if running then [Callback._update_gui_thread (some e) pr.progress] else [])

/-- The callbacks of `job_callbacks` for a whole progress list, in list order; the
entries take consecutive element addresses from `e` on and their widgets
consecutive widget addresses from `w` on (four widgets per entry, five with a
progress bar). -/
def expected_callbacks (panel : Option Nat) (running : Bool) (prog : Nat → dt_progress_t) :
    Nat → Nat → List Nat → List Callback
  | _, _, [] => []
  | e, w, p :: rest =>
    job_callbacks panel running (prog p) p e w ++
      expected_callbacks panel running prog (e + 1)
        (w + if (prog p).has_progress_bar then 5 else 4) rest

/-- Two progress objects that differ at most in their gui_data. -/
def SameJob (a b : dt_progress_t) : Prop :=
  a.progress = b.progress ∧ a.message = b.message ∧
  a.has_progress_bar = b.has_progress_bar ∧ a.cancellable = b.cancellable

/-- The element shows the job of a progress object: its `widget` is an event box,
its `hbox` a horizontal box holding a label with the message, and it has a
progress bar exactly when the progress object asks for one. -/
def shows_job (ws : List GtkWidget) (e : dt_lib_backgroundjob_element_t) (pr : dt_progress_t) :
    Prop :=
  has_kind ws e.widget .event_box = true ∧
  holds_label ws e.hbox pr.message = true ∧
  (e.progressbar ≠ none ↔ pr.has_progress_bar = true)

/-- What the loop of `gui_init` over the entries `l` does, from state `s` to state
`s'`, when every allocation succeeds. -/
structure LoopSpec (lib : Nat) (l : List Nat) (s s' : State) : Prop where
  h_list : s'.list = s.list
  h_running : s'.running = s.running
  h_module : s'.module_widget = s.module_widget
  h_length : s'.elements.length = s.elements.length + l.length
  h_pending : s'.pending = s.pending ++
    expected_callbacks (s.module_widget lib) s.running s.progress s.elements.length
      s.widgets.length l
  h_widgets : ∀ (i : Nat) (x : GtkWidget), s.widgets[i]? = some x → s'.widgets[i]? = some x
  h_same : ∀ q, SameJob (s'.progress q) (s.progress q)
  h_other : ∀ q, q ∉ l → s'.progress q = s.progress q
  h_elements : ∀ (i : Nat) (e : dt_lib_backgroundjob_element_t),
    s.elements[i]? = some (some e) →
    (∀ q ∈ l, (s.progress q).gui_data ≠ some i) → s'.elements[i]? = some (some e)
  h_entries : ∀ p ∈ l, ∃ i, l[i]? = some p ∧
    (s'.progress p).gui_data = some (s.elements.length + i) ∧
    ∃ e, s'.elements[s.elements.length + i]? = some (some e) ∧
      shows_job s'.widgets e (s.progress p)

/-- A state, before `gui_init`, whose progress list holds two running jobs:
progress 7 ("export", with a progress bar, not cancellable) and progress 8
("import", without a progress bar, cancellable); neither has gui_data yet. -/
def two_jobs_state : State :=
  { State.empty with
    list := [7, 8],
    progress := fun p =>
      { progress := 0, message := if p = 7 then "export" else "import",
        has_progress_bar := decide (p = 7), cancellable := decide (p = 8), gui_data := none } }

/-- The state `two_jobs_state` with only progress 7 listed, when the next
allocation fails. -/
def one_job_listed_oom_state : State :=
  { two_jobs_state with list := [7], malloc_results := [false] }

/-- The state `two_jobs_state` when the control is not running. -/
def two_jobs_stopped_state : State :=
  { two_jobs_state with running := false }

/-! ## Lemmas on the tables -/

theorem modify_append_right {α : Type} (f : α → α) (l₁ l₂ : List α) (k : Nat) :
    (l₁ ++ l₂).modify f (l₁.length + k) = l₁ ++ l₂.modify f k := by
  induction l₁ with
  | nil => simp
  | cons a l ih =>
    have : (l.length + 1 + k) = (l.length + k) + 1 := by omega
    simp [this, ih]

theorem modify_append_right_zero {α : Type} (f : α → α) (l₁ l₂ : List α) :
    (l₁ ++ l₂).modify f l₁.length = l₁ ++ l₂.modify f 0 := by
  simpa using modify_append_right f l₁ l₂ 0

theorem getElem?_append_add {α : Type} (l₁ l₂ : List α) (k : Nat) :
    (l₁ ++ l₂)[l₁.length + k]? = l₂[k]? := by
  rw [List.getElem?_append_right (by omega)]
  congr 1; omega

theorem getElem?_append_length {α : Type} (l₁ l₂ : List α) :
    (l₁ ++ l₂)[l₁.length]? = l₂[0]? := by
  simpa using getElem?_append_add l₁ l₂ 0

theorem set_append_length {α : Type} (l : List α) (a b : α) :
    (l ++ [a]).set l.length b = l ++ [b] := by
  induction l with
  | nil => rfl
  | cons x l ih => simp [ih]

/-! ## What `_lib_backgroundjobs_added` returns -/

theorem added_ok (st : State) (self : Nat) (bar : Bool) (msg : String)
    (h1 : st.malloc_results.headD true = true) (h2 : st.malloc_results.tail.headD true = true) :
    _lib_backgroundjobs_added st self bar msg =
      (added_state st self bar msg, some st.elements.length) := by
  have e1 : ∀ n : Nat, ¬ (n = n + 1) := by omega
  have e2 : ∀ n : Nat, ¬ (n + 2 = n + 3) := by omega
  have e3 : ∀ n : Nat, ¬ (n + 1 = n + 2) := by omega
  have e4 : ∀ n : Nat, ¬ (n + 1 = n + 4) := by omega
  cases bar <;>
  · simp only [_lib_backgroundjobs_added, calloc, malloc, h1, h2, if_true]
    simp only [gtk_event_box_new, gtk_box_new, gtk_label_new, gtk_progress_bar_new, g_object_new,
      State.modify_element, modify_widget, gtk_widget_set_name, gtk_container_set_border_width,
      GtkWidget.create, modify_append_right, modify_append_right_zero, getElem?_append_add,
      getElem?_append_length, List.append_assoc, List.singleton_append, List.cons_append,
      List.nil_append, List.length_append, List.length_cons, List.length_nil,
      List.modify_zero_cons, List.modify_succ_cons, List.getElem?_cons_zero,
      List.getElem?_cons_succ, List.modify_nil, Nat.add_assoc, Nat.reduceAdd, Nat.zero_add,
      Option.map_some']
    simp only [gtk_container_add, getElem?_append_add, getElem?_append_length,
      List.getElem?_cons_zero, List.getElem?_cons_succ, WidgetKind.is_box, WidgetKind.is_bin,
      Bool.false_eq_true, if_false, ite_false, true_and, ne_eq, e1, e2, e3, e4,
      not_false_eq_true, if_true, ite_true, modify_append_right, modify_append_right_zero,
      List.modify_zero_cons, List.modify_succ_cons]
    simp only [gtk_box_pack_start, getElem?_append_add, getElem?_append_length,
      List.getElem?_cons_zero, List.getElem?_cons_succ, WidgetKind.is_box, WidgetKind.is_bin,
      Bool.false_eq_true, if_false, ite_false, true_and, ne_eq, e1, e2, e3, e4,
      not_false_eq_true, if_true, ite_true, and_self, modify_append_right,
      modify_append_right_zero, List.modify_zero_cons, List.modify_succ_cons, List.append_assoc,
      List.singleton_append, List.cons_append, List.nil_append, List.length_append,
      List.length_cons, List.length_nil, Nat.add_assoc, Nat.reduceAdd, Nat.zero_add]
    simp only [g_main_context_invoke, added_state, job_widgets, GtkWidget.create,
      Bool.false_eq_true, if_false, ite_false, if_true, ite_true, List.append_nil,
      List.append_assoc, List.singleton_append, List.cons_append, List.nil_append]

theorem added_calloc_fails (st : State) (self : Nat) (bar : Bool) (msg : String)
    (h1 : st.malloc_results.headD true = false) :
    _lib_backgroundjobs_added st self bar msg =
      ({ st with malloc_results := st.malloc_results.tail }, none) := by
  simp only [_lib_backgroundjobs_added, calloc, h1, Bool.false_eq_true, if_false]

theorem added_malloc_fails (st : State) (self : Nat) (bar : Bool) (msg : String)
    (h1 : st.malloc_results.headD true = true) (h2 : st.malloc_results.tail.headD true = false) :
    _lib_backgroundjobs_added st self bar msg =
      ({ st with malloc_results := st.malloc_results.tail.tail,
                 elements := st.elements ++ [none] }, none) := by
  simp only [_lib_backgroundjobs_added, calloc, malloc, h1, h2, if_true, free, set_append_length]

/-- The three outcomes of `_lib_backgroundjobs_added`. -/
theorem added_cases (st : State) (self : Nat) (bar : Bool) (msg : String) :
    _lib_backgroundjobs_added st self bar msg =
        (added_state st self bar msg, some st.elements.length) ∨
    _lib_backgroundjobs_added st self bar msg =
        ({ st with malloc_results := st.malloc_results.tail }, none) ∨
    _lib_backgroundjobs_added st self bar msg =
        ({ st with malloc_results := st.malloc_results.tail.tail,
                   elements := st.elements ++ [none] }, none) := by
  cases h1 : st.malloc_results.headD true with
  | false => exact Or.inr (Or.inl (added_calloc_fails st self bar msg h1))
  | true =>
    cases h2 : st.malloc_results.tail.headD true with
    | false => exact Or.inr (Or.inr (added_malloc_fails st self bar msg h1 h2))
    | true => exact Or.inl (added_ok st self bar msg h1 h2)

/-! ## C1 -/

/-- C1: whenever `_lib_backgroundjobs_added` succeeds (returns a non-NULL element),
the element it returns is live, its `widget` is an event box, its `hbox` is a
horizontal box holding a label whose text is the message, and its
`progressbar` is non-NULL (and a progress bar) exactly when `has_progress_bar`
is true. -/
theorem C1_added_element (st : State) (self : Nat) (has_progress_bar : Bool) (message : String)
    (inst : Nat)
    (h : (_lib_backgroundjobs_added st self has_progress_bar message).2 = some inst) :
    ∃ e, (_lib_backgroundjobs_added st self has_progress_bar message).1.element (some inst)
          = some e ∧
      has_kind (_lib_backgroundjobs_added st self has_progress_bar message).1.widgets e.widget
        .event_box = true ∧
      holds_label (_lib_backgroundjobs_added st self has_progress_bar message).1.widgets e.hbox
        message = true ∧
      (e.progressbar ≠ none ↔ has_progress_bar = true) ∧
      (has_progress_bar = true →
        has_kind (_lib_backgroundjobs_added st self has_progress_bar message).1.widgets
          e.progressbar .progress_bar = true) := by
  cases h1 : st.malloc_results.headD true with
  | false => rw [added_calloc_fails st self _ _ h1] at h; cases h
  | true =>
    cases h2 : st.malloc_results.tail.headD true with
    | false => rw [added_malloc_fails st self _ _ h1 h2] at h; cases h
    | true =>
      rw [added_ok st self _ _ h1 h2] at h ⊢
      simp only [Option.some.injEq] at h
      subst h
      refine ⟨{ widget := some st.widgets.length,
                progressbar := if has_progress_bar then some (st.widgets.length + 4) else none,
                hbox := some (st.widgets.length + 2) }, ?_, ?_⟩
      · simp only [State.element, added_state, getElem?_append_length, List.getElem?_cons_zero]
        rfl
      · cases has_progress_bar <;>
        · simp only [added_state, job_widgets, has_kind, holds_label, gtk_container_get_children,
            getElem?_append_add, getElem?_append_length, GtkWidget.create, List.getElem?_cons_zero,
            List.getElem?_cons_succ, List.cons_append, List.nil_append, List.append_nil,
            Bool.false_eq_true, if_false, if_true, List.any_cons, List.any_nil]
          simp

/-- Witness of C1 on the empty state: a job with a progress bar. -/
theorem C1_added_element_witness :
    (_lib_backgroundjobs_added State.empty 0 true "export").2 = some 0 ∧
    ∃ e, (_lib_backgroundjobs_added State.empty 0 true "export").1.element (some 0) = some e ∧
      has_kind (_lib_backgroundjobs_added State.empty 0 true "export").1.widgets e.widget
        .event_box = true ∧
      holds_label (_lib_backgroundjobs_added State.empty 0 true "export").1.widgets e.hbox
        "export" = true ∧
      (e.progressbar ≠ none ↔ true = true) ∧
      (true = true →
        has_kind (_lib_backgroundjobs_added State.empty 0 true "export").1.widgets
          e.progressbar .progress_bar = true) :=
  ⟨by rfl, C1_added_element State.empty 0 true "export" 0 (by rfl)⟩

/-! ## C2 -/

theorem callback_returns_false (cb : Callback) (s : State) (r : State × Bool)
    (h : run_callback cb s = some r) : r.2 = false := by
  cases cb with
  | _added_gui_thread sw iw =>
    simp only [run_callback, _added_gui_thread, Option.some.injEq] at h
    rw [← h]
  | _destroyed_gui_thread self inst =>
    simp only [run_callback, _destroyed_gui_thread] at h
    split at h
    · simp only [Option.some.injEq] at h
      rw [← h]
    · cases h
  | _cancellable_gui_thread inst progress =>
    simp only [run_callback, _cancellable_gui_thread] at h
    split at h
    · cases h
    · simp only [Option.some.injEq] at h
      rw [← h]
  | _update_gui_thread inst value =>
    simp only [run_callback, _update_gui_thread] at h
    split at h
    · cases h
    · simp only [Option.some.injEq] at h
      rw [← h]

theorem one_shot_all (cb : Callback) : one_shot cb := by
  refine ⟨callback_returns_false cb, ?_⟩
  intro s hlive
  cases cb with
  | _added_gui_thread sw iw => rfl
  | _destroyed_gui_thread self inst =>
    have hl := hlive inst rfl
    cases inst with
    | none => simp [State.element] at hl
    | some i =>
      cases he : s.element (some i) with
      | none => rw [he] at hl; cases hl
      | some e => simp only [run_callback, _destroyed_gui_thread, he, Option.isSome_some]
  | _cancellable_gui_thread inst progress =>
    have hl := hlive inst rfl
    cases he : s.element inst with
    | none => rw [he] at hl; cases hl
    | some e => simp only [run_callback, _cancellable_gui_thread, he, Option.isSome_some]
  | _update_gui_thread inst value =>
    have hl := hlive inst rfl
    cases he : s.element inst with
    | none => rw [he] at hl; cases hl
    | some e => simp only [run_callback, _update_gui_thread, he, Option.isSome_some]

theorem only_hands_callback_none (st : State) (l : List Bool) :
    only_hands_callback st { st with malloc_results := l } :=
  ⟨fun _ _ => rfl, fun _ _ => rfl, rfl, rfl, rfl, rfl, rfl, rfl, [], by simp, by simp, by simp⟩

theorem only_hands_callback_one (st : State) (l : List Bool) (cb : Callback) :
    only_hands_callback st
      (g_main_context_invoke { st with malloc_results := l } cb) :=
  ⟨fun _ _ => rfl, fun _ _ => rfl, rfl, rfl, rfl, rfl, rfl, rfl, [cb], rfl, by simp,
    fun c _ => one_shot_all c⟩

theorem added_only_hands_callback (st : State) (self : Nat) (bar : Bool) (msg : String) :
    only_hands_callback st (_lib_backgroundjobs_added st self bar msg).1 := by
  rcases added_cases st self bar msg with h | h | h <;> rw [h]
  · refine ⟨fun i hi => ?_, fun i hi => ?_, rfl, rfl, rfl, rfl, rfl, rfl,
      [._added_gui_thread (st.module_widget self) (some st.widgets.length)], rfl, by simp,
      fun c _ => one_shot_all c⟩
    · exact List.getElem?_append_left hi
    · exact List.getElem?_append_left hi
  · exact only_hands_callback_none st _
  · refine ⟨fun _ _ => rfl, fun i hi => ?_, rfl, rfl, rfl, rfl, rfl, rfl, [], by simp, by simp,
      by simp⟩
    exact List.getElem?_append_left hi

theorem destroyed_only_hands_callback (st : State) (self : Nat) (inst : Option Nat) :
    only_hands_callback st (_lib_backgroundjobs_destroyed st self inst) := by
  simp only [_lib_backgroundjobs_destroyed, malloc]
  cases st.malloc_results.headD true
  · exact only_hands_callback_none st _
  · exact only_hands_callback_one st _ _

theorem cancellable_only_hands_callback (st : State) (self : Nat) (inst : Option Nat)
    (progress : Nat) :
    only_hands_callback st (_lib_backgroundjobs_cancellable st self inst progress) := by
  simp only [_lib_backgroundjobs_cancellable, malloc]
  split
  · exact ⟨fun _ _ => rfl, fun _ _ => rfl, rfl, rfl, rfl, rfl, rfl, rfl, [], by simp, by simp,
      by simp⟩
  · cases st.malloc_results.headD true
    · exact only_hands_callback_none st _
    · exact only_hands_callback_one st _ _

theorem updated_only_hands_callback (st : State) (self : Nat) (inst : Option Nat)
    (value : Rat) :
    only_hands_callback st (_lib_backgroundjobs_updated st self inst value) := by
  simp only [_lib_backgroundjobs_updated, malloc]
  split
  · exact ⟨fun _ _ => rfl, fun _ _ => rfl, rfl, rfl, rfl, rfl, rfl, rfl, [], by simp, by simp,
      by simp⟩
  · cases st.malloc_results.headD true
    · exact only_hands_callback_none st _
    · exact only_hands_callback_one st _ _

/-- C2: each of the four proxy functions, in its own body, leaves every existing
widget (hence the child list and the visibility of the panel, every cancel
button and every progress-bar fraction) and every existing element as it is;
its only effect on the shared state is to hand at most one callback to
`g_main_context_invoke`, and that callback is one-shot (it runs to its end
whenever the element it is for is live, and it returns `FALSE`). -/
theorem C2_proxy_functions_only_hand_callback (st : State) (self : Nat)
    (has_progress_bar : Bool) (message : String) (inst : Option Nat) (progress : Nat)
    (value : Rat) :
    only_hands_callback st (_lib_backgroundjobs_added st self has_progress_bar message).1 ∧
    only_hands_callback st (_lib_backgroundjobs_destroyed st self inst) ∧
    only_hands_callback st (_lib_backgroundjobs_cancellable st self inst progress) ∧
    only_hands_callback st (_lib_backgroundjobs_updated st self inst value) :=
  ⟨added_only_hands_callback st self has_progress_bar message,
   destroyed_only_hands_callback st self inst,
   cancellable_only_hands_callback st self inst progress,
   updated_only_hands_callback st self inst value⟩

/-! ## C5 -/

theorem gui_init_loop_proxy (self : Nat) (l : List Nat) (st : State) :
    (gui_init_loop self l st).proxy = st.proxy := by
  induction l generalizing st with
  | nil => rfl
  | cons p rest ih =>
    simp only [gui_init_loop]
    rw [ih]
    have hu := fun s i v => (updated_only_hands_callback s self i v).2.2.2.2.2.1
    have hc := fun s i v => (cancellable_only_hands_callback s self i v).2.2.2.2.2.1
    have ha := fun s b m => (added_only_hands_callback s self b m).2.2.2.2.2.1
    have hf : ∀ s g, (free s g).proxy = s.proxy := by
      intro s g; cases g <;> rfl
    rw [hu]
    split
    · rw [hc]; simp only [dt_control_progress_set_gui_data]; rw [ha, hf]
    · simp only [dt_control_progress_set_gui_data]; rw [ha, hf]

theorem gui_init_proxy (st : State) (self : Nat) :
    (gui_init st self).proxy = proxy_installed self := by
  simp only [gui_init, gui_init_loop_proxy, proxy_installed]

theorem run_lifecycle_append (st : State) (calls : List LifecycleCall) (c : LifecycleCall) :
    run_lifecycle st (calls ++ [c]) = run_lifecycle_call (run_lifecycle st calls) c := by
  simp [run_lifecycle]

/-- C5: starting from a progress system whose five proxy fields are all NULL,
after any sequence of `gui_init` and `gui_cleanup` calls the proxy is all NULL
(no call yet, or the last call was `gui_cleanup`) or all set, with the module of
the last `gui_init` and the four handlers of this module; `gui_cleanup` sets the
five fields to NULL and changes nothing else of the state (in particular the
progress list and every progress object, hence every gui_data). -/
theorem C5_proxy_all_or_nothing (st : State) (calls : List LifecycleCall)
    (h : st.proxy = proxy_null) :
    ((run_lifecycle st calls).proxy = proxy_null ∨
      ∃ self, (run_lifecycle st calls).proxy = proxy_installed self) ∧
    (run_lifecycle st calls).proxy =
      (match calls.getLast? with
       | some (.init self) => proxy_installed self
       | some (.cleanup _) => proxy_null
       | none => proxy_null) ∧
    ∀ (s : State) (self : Nat),
      gui_cleanup s self = { s with proxy := proxy_null } ∧
      (gui_cleanup s self).list = s.list ∧ (gui_cleanup s self).progress = s.progress := by
  have key : (run_lifecycle st calls).proxy =
      (match calls.getLast? with
       | some (.init self) => proxy_installed self
       | some (.cleanup _) => proxy_null
       | none => proxy_null) := by
    rcases List.eq_nil_or_concat calls with hnil | ⟨l, c, hc⟩
    · subst hnil; exact h
    · subst hc
      rw [List.concat_eq_append, run_lifecycle_append, List.getLast?_append]
      cases c with
      | init self => exact gui_init_proxy _ self
      | cleanup self => rfl
  refine ⟨?_, key, fun s self => ⟨rfl, rfl, rfl⟩⟩
  rw [key]
  split
  · exact Or.inr ⟨_, rfl⟩
  · exact Or.inl rfl
  · exact Or.inl rfl

/-- Witness of C5: init, cleanup, init on the empty state. -/
theorem C5_proxy_all_or_nothing_witness :
    State.empty.proxy = proxy_null ∧
    (run_lifecycle State.empty [.init 3, .cleanup 3, .init 4]).proxy = proxy_installed 4 :=
  ⟨rfl, (C5_proxy_all_or_nothing State.empty [.init 3, .cleanup 3, .init 4] rfl).2.1⟩

/-! ## C3 -/

theorem modify_append_left {α : Type} (f : α → α) (l₁ l₂ : List α) (i : Nat)
    (h : i < l₁.length) : (l₁ ++ l₂).modify f i = l₁.modify f i ++ l₂ := by
  induction l₁ generalizing i with
  | nil => simp at h
  | cons a l ih =>
    cases i with
    | zero => simp
    | succ i =>
      simp only [List.length_cons, Nat.add_lt_add_iff_right] at h
      simp [ih i h]

/-- The widget table after `_cancellable_gui_thread` has run on a box `h`. -/
theorem cancellable_widgets (ws : List GtkWidget) (h : Nat) (hw : GtkWidget) (progress : Nat)
    (hhw : ws[h]? = some hw) (hbox : hw.kind.is_box = true) :
    gtk_widget_show_all
        (gtk_box_pack_start
          (g_signal_connect_clicked (dtgtk_button_new ws).1 (some (dtgtk_button_new ws).2) progress)
          (some h) (some (dtgtk_button_new ws).2))
        (some (dtgtk_button_new ws).2) = with_cancel_button ws h progress := by
  have hlt : h < ws.length := by
    rcases Nat.lt_or_ge h ws.length with hl | hl
    · exact hl
    · rw [List.getElem?_eq_none hl] at hhw; cases hhw
  have hne : h ≠ ws.length := Nat.ne_of_lt hlt
  have hl1 : (ws ++ [({ GtkWidget.create .button with clicked := [progress] } : GtkWidget)])[h]?
      = some hw := by
    rw [List.getElem?_append_left hlt]; exact hhw
  simp only [dtgtk_button_new, g_object_new, g_signal_connect_clicked, modify_widget,
    modify_append_right_zero, List.modify_zero_cons, GtkWidget.create, List.nil_append]
  simp only [GtkWidget.create] at hl1
  simp only [gtk_box_pack_start, hl1, getElem?_append_length, List.getElem?_cons_zero, hbox,
    hne, ne_eq, not_false_eq_true, and_self, if_true, modify_append_left _ _ _ h hlt]
  have hlen : (ws.modify (fun x => { x with children := x.children ++ [ws.length] }) h).length
      = ws.length := List.length_modify _ _ _
  have hmod : ∀ (f : GtkWidget → GtkWidget) (b : GtkWidget),
      (ws.modify (fun x => { x with children := x.children ++ [ws.length] }) h ++ [b]).modify
        f ws.length =
      ws.modify (fun x => { x with children := x.children ++ [ws.length] }) h ++ [f b] := by
    intro f b
    have := modify_append_right_zero f
      (ws.modify (fun x => { x with children := x.children ++ [ws.length] }) h) [b]
    rw [hlen] at this
    rw [this]; rfl
  have hget : ∀ (b : GtkWidget),
      (ws.modify (fun x => { x with children := x.children ++ [ws.length] }) h ++ [b])[ws.length]?
        = some b := by
    intro b
    have := getElem?_append_length
      (ws.modify (fun x => { x with children := x.children ++ [ws.length] }) h) [b]
    rw [hlen] at this
    rw [this]; rfl
  rw [hmod]
  simp only [gtk_widget_show_all, show_all, hget, Bool.false_eq_true, if_false, List.foldl_nil,
    hmod, with_cancel_button, cancel_button, GtkWidget.create]

theorem with_cancel_button_length (ws : List GtkWidget) (h progress : Nat) :
    (with_cancel_button ws h progress).length = ws.length + 1 := by
  simp [with_cancel_button]

theorem with_cancel_button_new (ws : List GtkWidget) (h progress : Nat) :
    (with_cancel_button ws h progress)[ws.length]? = some (cancel_button h progress) := by
  have hlen : (ws.modify (fun x => { x with children := x.children ++ [ws.length] }) h).length
      = ws.length := List.length_modify _ _ _
  have := getElem?_append_length
    (ws.modify (fun x => { x with children := x.children ++ [ws.length] }) h)
    [cancel_button h progress]
  rw [hlen] at this
  rw [with_cancel_button, this]; rfl

theorem with_cancel_button_old (ws : List GtkWidget) (h progress i : Nat) (hi : i < ws.length) :
    (with_cancel_button ws h progress)[i]? =
      (ws.modify (fun x => { x with children := x.children ++ [ws.length] }) h)[i]? := by
  have hl : i < (ws.modify
      (fun x => { x with children := x.children ++ [ws.length] }) h).length := by
    rw [List.length_modify]; exact hi
  rw [with_cancel_button, List.getElem?_append_left hl]

/-- C3 (amended): when the control is running and the allocation of the parameter
block succeeds, `_lib_backgroundjobs_cancellable(self, instance, progress)` hands
exactly one callback to the main context; whenever that callback then runs on a
state `s` in which the element is live and its hbox is a box, it succeeds and
adds exactly one new widget, a button, as the last child of that hbox, leaving
every other widget as it is; and clicking that button calls
`dt_control_progress_cancel` once, on the progress object that was passed in. -/
theorem C3_cancel_button (st s : State) (self : Nat) (inst : Option Nat) (progress : Nat)
    (e : dt_lib_backgroundjob_element_t) (h : Nat) (hw : GtkWidget)
    (hrun : st.running = true) (hmalloc : st.malloc_results.headD true = true)
    (he : s.element inst = some e) (hh : e.hbox = some h) (hhw : s.widgets[h]? = some hw)
    (hbox : hw.kind.is_box = true) :
    (_lib_backgroundjobs_cancellable st self inst progress).pending =
      st.pending ++ [._cancellable_gui_thread inst progress] ∧
    ∃ s', run_callback (._cancellable_gui_thread inst progress) s = some (s', false) ∧
      s'.widgets.length = s.widgets.length + 1 ∧
      has_kind s'.widgets (some s.widgets.length) .button = true ∧
      gtk_container_get_children s'.widgets (some h) = hw.children ++ [s.widgets.length] ∧
      (∀ i, i < s.widgets.length → i ≠ h → s'.widgets[i]? = s.widgets[i]?) ∧
      s'.elements = s.elements ∧
      (gtk_button_clicked s' (some s.widgets.length)).cancelled = s.cancelled ++ [progress] := by
  have hlt : h < s.widgets.length := by
    rcases Nat.lt_or_ge h s.widgets.length with hl | hl
    · exact hl
    · rw [List.getElem?_eq_none hl] at hhw; cases hhw
  constructor
  · simp only [_lib_backgroundjobs_cancellable, hrun, malloc, hmalloc, g_main_context_invoke,
      Bool.not_true, Bool.false_eq_true, if_false]
  · refine ⟨{ s with widgets := with_cancel_button s.widgets h progress }, ?_, ?_, ?_, ?_, ?_,
      rfl, ?_⟩
    · simp only [run_callback, _cancellable_gui_thread, he, hh]
      rw [cancellable_widgets s.widgets h hw progress hhw hbox]
    · exact with_cancel_button_length _ _ _
    · simp only [has_kind, with_cancel_button_new, cancel_button, GtkWidget.create, decide_True]
    · simp only [gtk_container_get_children, with_cancel_button_old _ _ _ _ hlt,
        List.getElem?_modify_eq, hhw, Option.map_eq_map, Option.map_some']
    · intro i hi hne
      rw [with_cancel_button_old _ _ _ _ hi]
      exact List.getElem?_modify_ne _ _ (Ne.symm hne)
    · simp only [gtk_button_clicked, State.widget, with_cancel_button_new, cancel_button,
        List.foldl_cons, List.foldl_nil, _lib_backgroundjobs_cancel_callback_new,
        dt_control_progress_cancel]

/-- Witness of C3 on the state with one job entry: the cancel button is widget 6,
the second child of the hbox (widget 3), and clicking it cancels progress 7. -/
theorem C3_cancel_button_witness :
    (_lib_backgroundjobs_cancellable one_job_state 0 (some 0) 7).pending =
      one_job_state.pending ++ [._cancellable_gui_thread (some 0) 7] ∧
    ∃ s', run_callback (._cancellable_gui_thread (some 0) 7) one_job_state = some (s', false) ∧
      s'.widgets.length = one_job_state.widgets.length + 1 ∧
      has_kind s'.widgets (some one_job_state.widgets.length) .button = true ∧
      gtk_container_get_children s'.widgets (some 3) = [4] ++ [one_job_state.widgets.length] ∧
      (∀ i, i < one_job_state.widgets.length → i ≠ 3 →
        s'.widgets[i]? = one_job_state.widgets[i]?) ∧
      s'.elements = one_job_state.elements ∧
      (gtk_button_clicked s' (some one_job_state.widgets.length)).cancelled =
        one_job_state.cancelled ++ [7] :=
  C3_cancel_button one_job_state one_job_state 0 (some 0) 7
    { widget := some 1, progressbar := some 5, hbox := some 3 } 3
    { kind := .box .HORIZONTAL 0, name := none, parent := some 2, children := [4],
      visible := true, no_show_all := false, border_width := 0, fraction := 0, clicked := [] }
    (by rfl) (by rfl) (by rfl) (by rfl) (by rfl) (by rfl)

/-- Counterexample to C3 as stated: the control is running, element 0 is live and
its hbox (widget 3) is a box holding only the label (widget 4), but the
allocation of the parameter block fails: no callback is handed to the main
context, and after the main context has run no widget has been created and the
hbox still holds only the label. -/
theorem C3_counterexample :
    one_job_oom_state.running = true ∧
    one_job_oom_state.element (some 0) =
      some { widget := some 1, progressbar := some 5, hbox := some 3 } ∧
    has_kind one_job_oom_state.widgets (some 3) (.box .HORIZONTAL 0) = true ∧
    one_job_oom_state.pending = [] ∧
    (_lib_backgroundjobs_cancellable one_job_oom_state 0 (some 0) 7).pending = [] ∧
    (g_main_context_iteration
        (_lib_backgroundjobs_cancellable one_job_oom_state 0 (some 0) 7)).map
      (fun s => (gtk_container_get_children s.widgets (some 3), s.widgets.length)) =
      some ([4], 6) := by
  refine ⟨by rfl, by rfl, by rfl, by rfl, by rfl, by rfl⟩

/-! ## C6: lemmas on the GTK calls -/

theorem lt_of_getElem?_eq_some {α : Type} {l : List α} {i : Nat} {x : α} (h : l[i]? = some x) :
    i < l.length := by
  rcases Nat.lt_or_ge i l.length with hl | hl
  · exact hl
  · rw [List.getElem?_eq_none hl] at h; cases h

theorem getElem?_modify_some {α : Type} (f : α → α) (l : List α) (i j : Nat) (x : α)
    (h : l[j]? = some x) : (l.modify f i)[j]? = some (if i = j then f x else x) := by
  rw [List.getElem?_modify, h]; rfl

theorem unvis_modify_visible (ws : List GtkWidget) (b : Bool) (i : Nat) :
    (ws.modify (fun y => { y with visible := b }) i).map unvis = ws.map unvis := by
  apply List.ext_getElem?
  intro j
  rw [List.getElem?_map, List.getElem?_map, List.getElem?_modify]
  cases ws[j]? with
  | none => rfl
  | some x =>
    by_cases hij : i = j
    · simp [hij, unvis]
    · simp [hij]

theorem show_all_unvis (fuel : Nat) : ∀ (ws : List GtkWidget) (w : Nat),
    (show_all fuel ws w).map unvis = ws.map unvis := by
  induction fuel with
  | zero => intro ws w; rfl
  | succ n ih =>
    intro ws w
    simp only [show_all]
    split
    · rfl
    · split
      · rfl
      · rename_i x _ _
        rw [unvis_modify_visible]
        have hfold : ∀ (cs : List Nat) (acc : List GtkWidget),
            (cs.foldl (fun acc c => show_all n acc c) acc).map unvis = acc.map unvis := by
          intro cs
          induction cs with
          | nil => intro acc; rfl
          | cons c cs ihc =>
            intro acc
            simp only [List.foldl_cons]
            rw [ihc, ih]
        exact hfold _ _

theorem gtk_widget_show_all_unvis (ws : List GtkWidget) (w : Option Nat) :
    (gtk_widget_show_all ws w).map unvis = ws.map unvis := by
  cases w with
  | none => rfl
  | some i => exact show_all_unvis _ ws i

/-- Tables that agree up to visibility hold the same widgets up to visibility. -/
theorem unvis_getElem? {ws ws' : List GtkWidget} (h : ws'.map unvis = ws.map unvis) (i : Nat)
    (x : GtkWidget) (hx : ws[i]? = some x) :
    ∃ x', ws'[i]? = some x' ∧ x'.kind = x.kind ∧ x'.parent = x.parent ∧
      x'.children = x.children := by
  have h1 : (ws'.map unvis)[i]? = (ws.map unvis)[i]? := by rw [h]
  rw [List.getElem?_map, List.getElem?_map, hx] at h1
  cases hx' : ws'[i]? with
  | none => rw [hx'] at h1; cases h1
  | some x' =>
    rw [hx'] at h1
    simp only [Option.map_some', Option.some.injEq] at h1
    have hk : (unvis x').kind = (unvis x).kind := congrArg GtkWidget.kind h1
    have hp : (unvis x').parent = (unvis x).parent := congrArg GtkWidget.parent h1
    have hc : (unvis x').children = (unvis x).children := congrArg GtkWidget.children h1
    exact ⟨x', rfl, hk, hp, hc⟩

theorem show_all_leaf (fuel : Nat) (ws : List GtkWidget) (w : Nat) (x : GtkWidget)
    (hx : ws[w]? = some x) (hc : x.children = []) (hn : x.no_show_all = false) :
    show_all (fuel + 1) ws w = ws.modify (fun y => { y with visible := true }) w := by
  simp only [show_all, hx, hn, hc, List.foldl_nil, Bool.false_eq_true, if_false]

theorem reorder_ne_nil (l : List Nat) (c position : Nat) (h : l ≠ []) :
    reorder l c position ≠ [] := by
  unfold reorder
  split
  · split
    · exact h
    · simp
  · exact h

/-! ### `KeepsOrphans` -/

theorem keepsOrphans_refl (c : Option Nat) (ws : List GtkWidget) : KeepsOrphans c ws ws :=
  fun _ x _ hx hp => ⟨x, hx, hp⟩

theorem keepsOrphans_trans {c : Option Nat} {ws ws' ws'' : List GtkWidget}
    (h1 : KeepsOrphans c ws ws') (h2 : KeepsOrphans c ws' ws'') : KeepsOrphans c ws ws'' := by
  intro i x hi hx hp
  obtain ⟨x', hx', hp'⟩ := h1 i x hi hx hp
  exact h2 i x' hi hx' hp'

theorem keepsOrphans_weaken {c : Option Nat} {ws ws' : List GtkWidget}
    (h : KeepsOrphans none ws ws') : KeepsOrphans c ws ws' :=
  fun i x _ hx hp => h i x (by simp) hx hp

theorem keepsOrphans_modify (c : Option Nat) (ws : List GtkWidget) (f : GtkWidget → GtkWidget)
    (i : Nat) (hf : ∀ x, (f x).parent = x.parent) : KeepsOrphans c ws (ws.modify f i) := by
  intro j x _ hx hp
  refine ⟨_, getElem?_modify_some f ws i j x hx, ?_⟩
  split
  · rw [hf]; exact hp
  · exact hp

theorem keepsOrphans_append (c : Option Nat) (ws l : List GtkWidget) :
    KeepsOrphans c ws (ws ++ l) := by
  intro j x _ hx hp
  exact ⟨x, by rw [List.getElem?_append_left (lt_of_getElem?_eq_some hx)]; exact hx, hp⟩

theorem keepsOrphans_of_unvis {ws ws' : List GtkWidget} (c : Option Nat)
    (h : ws'.map unvis = ws.map unvis) : KeepsOrphans c ws ws' := by
  intro j x _ hx hp
  obtain ⟨x', hx', _, hpar, _⟩ := unvis_getElem? h j x hx
  exact ⟨x', hx', by rw [hpar]; exact hp⟩

theorem keepsOrphans_pack_start (ws : List GtkWidget) (box child : Option Nat) :
    KeepsOrphans child ws (gtk_box_pack_start ws box child) := by
  unfold gtk_box_pack_start
  split
  · rename_i b c
    split
    · split
      · intro j x hj hx hp
        have hjc : c ≠ j := fun h => hj (by rw [h])
        rw [List.getElem?_modify_ne _ _ hjc]
        refine ⟨_, getElem?_modify_some _ ws b j x hx, ?_⟩
        split <;> exact hp
      · exact keepsOrphans_refl _ _
    · exact keepsOrphans_refl _ _
  · exact keepsOrphans_refl _ _

theorem keepsOrphans_remove (c : Option Nat) (ws : List GtkWidget) (container w : Option Nat) :
    KeepsOrphans c ws (gtk_container_remove ws container w) := by
  unfold gtk_container_remove
  split
  · rename_i b d
    split
    · split
      · intro j x _ hx hp
        have h1 := getElem?_modify_some
          (fun (y : GtkWidget) => { y with children := y.children.erase d }) ws b j x hx
        refine ⟨_, getElem?_modify_some _ _ d j _ h1, ?_⟩
        split
        · rfl
        · split <;> exact hp
      · exact keepsOrphans_refl _ _
    · exact keepsOrphans_refl _ _
  · exact keepsOrphans_refl _ _

theorem keepsOrphans_modify_widget (c : Option Nat) (ws : List GtkWidget)
    (f : GtkWidget → GtkWidget) (w : Option Nat) (hf : ∀ x, (f x).parent = x.parent) :
    KeepsOrphans c ws (modify_widget ws w f) := by
  cases w with
  | none => exact keepsOrphans_refl _ _
  | some i => exact keepsOrphans_modify c ws f i hf

theorem keepsOrphans_reorder_child (c : Option Nat) (ws : List GtkWidget) (box child : Option Nat)
    (position : Nat) : KeepsOrphans c ws (gtk_box_reorder_child ws box child position) := by
  unfold gtk_box_reorder_child
  split
  · split
    · split
      · exact keepsOrphans_modify c ws _ _ (fun _ => rfl)
      · exact keepsOrphans_refl _ _
    · exact keepsOrphans_refl _ _
  · exact keepsOrphans_refl _ _

theorem keepsOrphans_set_fraction (c : Option Nat) (ws : List GtkWidget) (pbar : Option Nat)
    (v : Rat) : KeepsOrphans c ws (gtk_progress_bar_set_fraction ws pbar v) := by
  unfold gtk_progress_bar_set_fraction
  split
  · exact keepsOrphans_refl _ _
  · split
    · split
      · exact keepsOrphans_modify c ws _ _ (fun _ => rfl)
      · exact keepsOrphans_refl _ _
    · exact keepsOrphans_refl _ _

/-! ## C6: the invariant is kept by every callback -/

theorem mem_add_widgets {l : List Callback} {sw iw : Option Nat}
    (h : Callback._added_gui_thread sw iw ∈ l) : iw ∈ add_widgets l := by
  unfold add_widgets
  rw [List.mem_filterMap]
  exact ⟨_, h, rfl⟩

theorem pack_start_frame (ws : List GtkWidget) (box child : Option Nat) (i : Nat)
    (hb : some i ≠ box) (hc : some i ≠ child) : (gtk_box_pack_start ws box child)[i]? = ws[i]? := by
  unfold gtk_box_pack_start
  split
  · rename_i b c
    have hb' : b ≠ i := fun h => hb (by rw [h])
    have hc' : c ≠ i := fun h => hc (by rw [h])
    split
    · split
      · rw [List.getElem?_modify_ne _ _ hc', List.getElem?_modify_ne _ _ hb']
      · rfl
    · rfl
  · rfl

theorem pack_start_child (ws : List GtkWidget) (box : Option Nat) (c : Nat) (x : GtkWidget)
    (hx : ws[c]? = some x) :
    ∃ x', (gtk_box_pack_start ws box (some c))[c]? = some x' ∧ x'.children = x.children ∧
      x'.no_show_all = x.no_show_all := by
  cases box with
  | none => exact ⟨x, hx, rfl, rfl⟩
  | some b =>
    simp only [gtk_box_pack_start, hx]
    cases hb : ws[b]? with
    | none => exact ⟨x, hx, rfl, rfl⟩
    | some bw =>
      simp only []
      split
      · rename_i hg
        have hbc : b ≠ c := hg.2.2
        have h1 : (ws.modify (fun y => { y with children := y.children ++ [c] }) b)[c]?
            = some x := by
          rw [List.getElem?_modify_ne _ _ hbc]; exact hx
        refine ⟨_, getElem?_modify_some _ _ c c x h1, ?_, ?_⟩ <;> simp
      · exact ⟨x, hx, rfl, rfl⟩

theorem set_fraction_box (ws : List GtkWidget) (pbar : Option Nat) (v : Rat) (i : Nat)
    (x : GtkWidget) (hx : ws[i]? = some x) (hbox : x.kind.is_box = true) :
    (gtk_progress_bar_set_fraction ws pbar v)[i]? = some x := by
  unfold gtk_progress_bar_set_fraction
  split
  · exact hx
  · rename_i j
    split
    · rename_i y hy
      split
      · rename_i hpb
        by_cases hji : j = i
        · subst hji
          rw [hx] at hy
          cases hy
          cases hk : x.kind <;> simp [hk, WidgetKind.is_box, WidgetKind.is_progress_bar] at hbox hpb
        · rw [List.getElem?_modify_ne _ _ hji]; exact hx
      · exact hx
    · exact hx

theorem remove_panel (ws : List GtkWidget) (panel : Nat) (w : Option Nat) (pw : GtkWidget)
    (hpw : ws[panel]? = some pw) (hpar : pw.parent = none) :
    ∃ pw1, (gtk_container_remove ws (some panel) w)[panel]? = some pw1 ∧ pw1.kind = pw.kind ∧
      pw1.parent = none ∧ pw1.visible = pw.visible ∧ (pw.children = [] → pw1.children = []) := by
  cases w with
  | none => exact ⟨pw, hpw, rfl, hpar, rfl, id⟩
  | some c =>
    simp only [gtk_container_remove, hpw]
    cases hc : ws[c]? with
    | none => exact ⟨pw, hpw, rfl, hpar, rfl, id⟩
    | some cw =>
      simp only []
      split
      · rename_i hg
        have hbc : panel ≠ c := hg.2
        have h1 := getElem?_modify_some
          (fun (y : GtkWidget) => { y with children := y.children.erase c }) ws panel panel pw hpw
        rw [List.getElem?_modify_ne _ _ (Ne.symm hbc), h1]
        simp only [if_true]
        refine ⟨_, rfl, rfl, hpar, rfl, ?_⟩
        intro h; simp [h]
      · exact ⟨pw, hpw, rfl, hpar, rfl, id⟩

/-- Rebuilding the invariant after a step that adds no add callback. -/
theorem panelInv_step {self panel : Nat} {st st' : State} (c : Option Nat)
    (hinv : PanelInv self panel st)
    (hm : st'.module_widget = st.module_widget)
    (hpanel : ∃ pw, st'.widgets[panel]? = some pw ∧ pw.kind.is_box = true ∧ pw.parent = none ∧
      (pw.visible = true ↔ pw.children ≠ []))
    (hel : ∀ (i : Nat) (e : dt_lib_backgroundjob_element_t),
      st'.elements[i]? = some (some e) → e.hbox ≠ some panel)
    (hsub : ∀ sw iw, Callback._added_gui_thread sw iw ∈ st'.pending →
      Callback._added_gui_thread sw iw ∈ st.pending)
    (hnd : (add_widgets st'.pending).Nodup)
    (hk : KeepsOrphans c st.widgets st'.widgets)
    (hc : ∀ sw, Callback._added_gui_thread sw c ∉ st'.pending)
    (hd : ∀ s inst, Callback._destroyed_gui_thread s inst ∈ st'.pending → s = self) :
    PanelInv self panel st' := by
  refine ⟨by rw [hm]; exact hinv.h_module, hpanel, hel, ?_, hnd, hd⟩
  intro sw iw hmem
  obtain ⟨hsw, w, ww, hiw, hne, hww, hpar⟩ := hinv.h_adds sw iw (hsub sw iw hmem)
  have hwc : some w ≠ c := by
    intro h
    rw [← h, ← hiw] at hc
    exact hc sw hmem
  obtain ⟨x', hx', hp'⟩ := hk w ww hwc hww hpar
  exact ⟨hsw, w, x', hiw, hne, hx', hp'⟩

theorem panelInv_no_null_add {self panel : Nat} {st : State} (hinv : PanelInv self panel st)
    (sw : Option Nat) : Callback._added_gui_thread sw none ∉ st.pending := by
  intro h
  obtain ⟨_, w, ww, hiw, _⟩ := hinv.h_adds sw none h
  cases hiw

theorem panelInv_no_fresh_add {self panel : Nat} {st : State} (hinv : PanelInv self panel st)
    (sw : Option Nat) (n : Nat) (hn : st.widgets.length ≤ n) :
    Callback._added_gui_thread sw (some n) ∉ st.pending := by
  intro h
  obtain ⟨_, w, ww, hiw, _, hww, _⟩ := hinv.h_adds sw (some n) h
  cases hiw
  have := lt_of_getElem?_eq_some hww
  omega

theorem panelInv_panel_lt {self panel : Nat} {st : State} (hinv : PanelInv self panel st) :
    panel < st.widgets.length := by
  obtain ⟨pw, hpw, _⟩ := hinv.h_panel
  exact lt_of_getElem?_eq_some hpw

theorem element_getElem? {st : State} {inst : Option Nat} {e : dt_lib_backgroundjob_element_t}
    (h : st.element inst = some e) : ∃ i, inst = some i ∧ st.elements[i]? = some (some e) := by
  cases inst with
  | none => cases h
  | some i =>
    refine ⟨i, rfl, ?_⟩
    simp only [State.element] at h
    cases hx : st.elements[i]? with
    | none => rw [hx] at h; cases h
    | some o =>
      rw [hx] at h
      cases o with
      | none => cases h
      | some e' => cases h; rfl

theorem added_gui_thread_widgets (st : State) (sw iw : Option Nat) :
    (_added_gui_thread st sw iw).1 =
      { st with widgets := (gtk_widget_show (gtk_widget_show_all
          (gtk_box_reorder_child (gtk_box_pack_start st.widgets sw iw) sw iw 1) iw) sw) } :=
  rfl

/-- The add callback keeps the invariant and leaves the panel shown, with a
child. -/
theorem inv_added_gui_thread {self panel : Nat} {st : State} {sw iw : Option Nat}
    {rest : List Callback} (hinv : PanelInv self panel st)
    (hp : st.pending = Callback._added_gui_thread sw iw :: rest) :
    PanelInv self panel (_added_gui_thread { st with pending := rest } sw iw).1 ∧
    panel_visible (_added_gui_thread { st with pending := rest } sw iw).1 self = true ∧
    panel_children (_added_gui_thread { st with pending := rest } sw iw).1 self ≠ [] := by
  obtain ⟨pw, hpw, hbox, hpar, hvis⟩ := hinv.h_panel
  have hhead : Callback._added_gui_thread sw iw ∈ st.pending := by
    rw [hp]; exact List.mem_cons_self _ _
  obtain ⟨hsw, w, ww, hiw, hne, hww, hwpar⟩ := hinv.h_adds sw iw hhead
  subst hsw; subst hiw
  have hnd := hinv.h_distinct
  rw [hp] at hnd
  simp only [add_widgets, List.filterMap_cons] at hnd
  rw [List.nodup_cons] at hnd
  -- the widget table, call by call
  have h1 : gtk_box_pack_start st.widgets (some panel) (some w) =
      (st.widgets.modify (fun x => { x with children := x.children ++ [w] }) panel).modify
        (fun x => { x with parent := some panel }) w := by
    simp only [gtk_box_pack_start, hpw, hww, hbox, hwpar, ne_eq, Ne.symm hne, not_false_eq_true,
      and_self, if_true]
  have hp1 : (gtk_box_pack_start st.widgets (some panel) (some w))[panel]? =
      some { pw with children := pw.children ++ [w] } := by
    rw [h1, List.getElem?_modify_ne _ _ hne, List.getElem?_modify_eq, hpw]; rfl
  have h2 : gtk_box_reorder_child (gtk_box_pack_start st.widgets (some panel) (some w))
      (some panel) (some w) 1 =
      (gtk_box_pack_start st.widgets (some panel) (some w)).modify
        (fun x => { x with children := reorder x.children w 1 }) panel := by
    simp only [gtk_box_reorder_child, hp1, hbox, if_true]
  have hp2 : (gtk_box_reorder_child (gtk_box_pack_start st.widgets (some panel) (some w))
      (some panel) (some w) 1)[panel]? =
      some { pw with children := reorder (pw.children ++ [w]) w 1 } := by
    rw [h2, List.getElem?_modify_eq, hp1]; rfl
  obtain ⟨x3, hx3, hk3, hpar3, hch3⟩ :=
    unvis_getElem? (gtk_widget_show_all_unvis _ (some w)) panel _ hp2
  have hp4 : (gtk_widget_show
      (gtk_widget_show_all
        (gtk_box_reorder_child (gtk_box_pack_start st.widgets (some panel) (some w))
          (some panel) (some w) 1) (some w)) (some panel))[panel]? =
      some { x3 with visible := true } := by
    simp only [gtk_widget_show, modify_widget]
    rw [List.getElem?_modify_eq, hx3]; rfl
  have hchildren : reorder (pw.children ++ [w]) w 1 ≠ [] :=
    reorder_ne_nil _ _ _ (by simp)
  have hko : KeepsOrphans (some w) st.widgets
      (gtk_widget_show
        (gtk_widget_show_all
          (gtk_box_reorder_child (gtk_box_pack_start st.widgets (some panel) (some w))
            (some panel) (some w) 1) (some w)) (some panel)) :=
    keepsOrphans_trans
      (keepsOrphans_trans (keepsOrphans_pack_start _ _ _) (keepsOrphans_reorder_child _ _ _ _ _))
      (keepsOrphans_trans (keepsOrphans_of_unvis _ (gtk_widget_show_all_unvis _ _))
        (keepsOrphans_modify_widget _ _ _ _ (fun _ => rfl)))
  rw [added_gui_thread_widgets]
  refine ⟨?_, ?_, ?_⟩
  · refine panelInv_step (some w) hinv rfl ⟨{ x3 with visible := true }, hp4, ?_, ?_, ?_⟩
      hinv.h_hbox ?_ hnd.2 hko ?_ ?_
    · show x3.kind.is_box = true
      rw [hk3]; exact hbox
    · show x3.parent = none
      rw [hpar3]; exact hpar
    · show true = true ↔ x3.children ≠ []
      rw [hch3]
      exact ⟨fun _ => hchildren, fun _ => rfl⟩
    · intro sw' iw' hmem
      rw [hp]; exact List.mem_cons_of_mem _ hmem
    · intro sw' hmem
      exact hnd.1 (mem_add_widgets hmem)
    · intro s inst hmem
      exact hinv.h_destroys s inst (by rw [hp]; exact List.mem_cons_of_mem _ hmem)
  · simp only [panel_visible, hinv.h_module, gtk_widget_get_visible, hp4]
  · simp only [panel_children, hinv.h_module, gtk_container_get_children, hp4]
    rw [hch3]; exact hchildren

theorem elements_after_free {els : List (Option dt_lib_backgroundjob_element_t)}
    {f : dt_lib_backgroundjob_element_t → dt_lib_backgroundjob_element_t} {i j : Nat}
    {e : dt_lib_backgroundjob_element_t}
    (h : ((els.modify (Option.map f) i).set i none)[j]? = some (some e)) :
    els[j]? = some (some e) := by
  rw [List.getElem?_set] at h
  split at h
  · split at h <;> cases h
  · rename_i hij
    rw [List.getElem?_modify_ne _ _ hij] at h
    exact h

theorem destroyed_gui_thread_eq (st : State) (self i : Nat)
    (e : dt_lib_backgroundjob_element_t) (hel : st.element (some i) = some e) :
    _destroyed_gui_thread st self (some i) =
      some ({ st with
                widgets := destroyed_widgets st.widgets (st.module_widget self) e.widget,
                elements := (st.elements.modify
                  (Option.map (fun e => { e with widget := none })) i).set i none }, false) := by
  simp only [_destroyed_gui_thread, hel, destroyed_widgets, free, State.modify_element]
  split <;> split <;> rfl

/-- The destroy callback keeps the invariant. -/
theorem inv_destroyed_gui_thread {self panel : Nat} {st : State} {inst : Option Nat}
    {rest : List Callback} {r : State × Bool} (hinv : PanelInv self panel st)
    (hp : st.pending = Callback._destroyed_gui_thread self inst :: rest)
    (hr : _destroyed_gui_thread { st with pending := rest } self inst = some r) :
    PanelInv self panel r.1 := by
  obtain ⟨pw, hpw, hbox, hpar, hvis⟩ := hinv.h_panel
  have hnd := hinv.h_distinct
  rw [hp] at hnd
  simp only [add_widgets, List.filterMap_cons] at hnd
  have hmod := hinv.h_module
  cases inst with
  | none => simp [_destroyed_gui_thread] at hr
  | some i =>
  cases hel : State.element { st with pending := rest } (some i) with
  | none => simp [_destroyed_gui_thread, hel] at hr
  | some e =>
    rw [destroyed_gui_thread_eq _ _ _ e hel] at hr
    simp only [Option.some.injEq] at hr
    subst hr
    simp only [hmod]
    -- the table after the removal
    have hrem : ∃ ws1 pw1, (if e.widget ≠ none ∧ GTK_IS_WIDGET st.widgets e.widget = true then
          gtk_container_remove st.widgets (some panel) e.widget else st.widgets) = ws1 ∧
        KeepsOrphans none st.widgets ws1 ∧ ws1[panel]? = some pw1 ∧ pw1.kind = pw.kind ∧
        pw1.parent = none ∧ pw1.visible = pw.visible ∧ (pw.children = [] → pw1.children = []) := by
      split
      · obtain ⟨pw1, h1, h2, h3, h4, h5⟩ := remove_panel st.widgets panel e.widget pw hpw hpar
        exact ⟨_, pw1, rfl, keepsOrphans_remove _ _ _ _, h1, h2, h3, h4, h5⟩
      · exact ⟨_, pw, rfl, keepsOrphans_refl _ _, hpw, rfl, hpar, rfl, id⟩
    obtain ⟨ws1, pw1, hws1, hko1, hpw1, hk1, hpar1, hvis1, hch1⟩ := hrem
    simp only [destroyed_widgets, hws1, gtk_container_get_children, hpw1, List.length_eq_zero]
    by_cases hempty : pw1.children = []
    · simp only [hempty, if_true, gtk_widget_hide, modify_widget]
      refine panelInv_step none hinv rfl ⟨{ pw1 with visible := false }, ?_, ?_, hpar1, ?_⟩
        ?_ ?_ hnd ?_ ?_ ?_
      · show (ws1.modify _ panel)[panel]? = _
        rw [List.getElem?_modify_eq, hpw1]; rfl
      · show pw1.kind.is_box = true
        rw [hk1]; exact hbox
      · show false = true ↔ pw1.children ≠ []
        simp [hempty]
      · intro j e' hj
        exact hinv.h_hbox j e' (elements_after_free hj)
      · intro sw' iw' hmem
        rw [hp]; exact List.mem_cons_of_mem _ hmem
      · exact keepsOrphans_trans hko1 (keepsOrphans_modify _ _ _ _ (fun _ => rfl))
      · intro sw' hmem
        exact panelInv_no_null_add hinv sw' (by rw [hp]; exact List.mem_cons_of_mem _ hmem)
      · intro s inst' hmem
        exact hinv.h_destroys s inst' (by rw [hp]; exact List.mem_cons_of_mem _ hmem)
    · simp only [hempty, if_false]
      refine panelInv_step none hinv rfl ⟨pw1, hpw1, ?_, hpar1, ?_⟩ ?_ ?_ hnd hko1 ?_ ?_
      · rw [hk1]; exact hbox
      · rw [hvis1]
        have : pw.children ≠ [] := fun h => hempty (hch1 h)
        exact ⟨fun _ => hempty, fun _ => hvis.2 this⟩
      · intro j e' hj
        exact hinv.h_hbox j e' (elements_after_free hj)
      · intro sw' iw' hmem
        rw [hp]; exact List.mem_cons_of_mem _ hmem
      · intro sw' hmem
        exact panelInv_no_null_add hinv sw' (by rw [hp]; exact List.mem_cons_of_mem _ hmem)
      · intro s inst' hmem
        exact hinv.h_destroys s inst' (by rw [hp]; exact List.mem_cons_of_mem _ hmem)

theorem cancellable_gui_thread_eq (st : State) (inst : Option Nat) (progress : Nat)
    (e : dt_lib_backgroundjob_element_t) (hel : st.element inst = some e) :
    _cancellable_gui_thread st inst progress =
      some ({ st with widgets :=
        (gtk_widget_show_all
          (gtk_box_pack_start
            (g_signal_connect_clicked (dtgtk_button_new st.widgets).1
              (some (dtgtk_button_new st.widgets).2) progress)
            e.hbox (some (dtgtk_button_new st.widgets).2))
          (some (dtgtk_button_new st.widgets).2)) }, false) := by
  simp only [_cancellable_gui_thread, hel]

/-- What `_cancellable_gui_thread` does to the widget table, whatever the hbox
pointer is: widgets other than the hbox are left as they are and no widget
gets a parent except the new button. -/
theorem cancellable_table (ws : List GtkWidget) (hbox : Option Nat) (progress : Nat) :
    KeepsOrphans (some ws.length) ws
      (gtk_widget_show_all
        (gtk_box_pack_start
          (g_signal_connect_clicked (dtgtk_button_new ws).1 (some (dtgtk_button_new ws).2) progress)
          hbox (some (dtgtk_button_new ws).2))
        (some (dtgtk_button_new ws).2)) ∧
    ∀ i, i < ws.length → some i ≠ hbox →
      (gtk_widget_show_all
        (gtk_box_pack_start
          (g_signal_connect_clicked (dtgtk_button_new ws).1 (some (dtgtk_button_new ws).2) progress)
          hbox (some (dtgtk_button_new ws).2))
        (some (dtgtk_button_new ws).2))[i]? = ws[i]? := by
  simp only [dtgtk_button_new, g_object_new, g_signal_connect_clicked, modify_widget,
    modify_append_right_zero, List.modify_zero_cons]
  constructor
  · exact keepsOrphans_trans
      (keepsOrphans_trans (keepsOrphans_append _ ws _) (keepsOrphans_pack_start _ _ _))
      (keepsOrphans_of_unvis _ (gtk_widget_show_all_unvis _ _))
  · intro i hi hne
    have hb : (ws ++ [({ GtkWidget.create .button with
        clicked := (GtkWidget.create .button).clicked ++ [progress] } : GtkWidget)])[ws.length]?
        = some { GtkWidget.create .button with
            clicked := (GtkWidget.create .button).clicked ++ [progress] } := by
      rw [getElem?_append_length]; rfl
    obtain ⟨x', hx', hch, hns⟩ := pack_start_child _ hbox ws.length _ hb
    have hil : some i ≠ some ws.length := by
      intro h; cases h; omega
    have hil' : ws.length ≠ i := by omega
    simp only [gtk_widget_show_all]
    rw [show_all_leaf _ _ _ x' hx' (by rw [hch]; rfl) (by rw [hns]; rfl),
      List.getElem?_modify_ne _ _ hil', pack_start_frame _ _ _ _ hne hil,
      List.getElem?_append_left hi]

/-- The cancellable callback keeps the invariant. -/
theorem inv_cancellable_gui_thread {self panel : Nat} {st : State} {inst : Option Nat}
    {progress : Nat} {rest : List Callback} {r : State × Bool} (hinv : PanelInv self panel st)
    (hp : st.pending = Callback._cancellable_gui_thread inst progress :: rest)
    (hr : _cancellable_gui_thread { st with pending := rest } inst progress = some r) :
    PanelInv self panel r.1 := by
  obtain ⟨pw, hpw, hbox, hpar, hvis⟩ := hinv.h_panel
  have hnd := hinv.h_distinct
  rw [hp] at hnd
  simp only [add_widgets, List.filterMap_cons] at hnd
  cases hel : State.element { st with pending := rest } inst with
  | none => simp [_cancellable_gui_thread, hel] at hr
  | some e =>
    rw [cancellable_gui_thread_eq _ _ _ e hel] at hr
    simp only [Option.some.injEq] at hr
    subst hr
    obtain ⟨i, _, hi⟩ := element_getElem? hel
    have hne : some panel ≠ e.hbox := fun h => hinv.h_hbox i e hi h.symm
    obtain ⟨hko, hframe⟩ := cancellable_table st.widgets e.hbox progress
    refine panelInv_step (some st.widgets.length) hinv rfl ⟨pw, ?_, hbox, hpar, hvis⟩
      hinv.h_hbox ?_ hnd hko ?_ ?_
    · exact (hframe panel (panelInv_panel_lt hinv) hne).trans hpw
    · intro sw' iw' hmem
      rw [hp]; exact List.mem_cons_of_mem _ hmem
    · intro sw' hmem
      exact panelInv_no_fresh_add hinv sw' _ (Nat.le_refl _)
        (by rw [hp]; exact List.mem_cons_of_mem _ hmem)
    · intro s inst' hmem
      exact hinv.h_destroys s inst' (by rw [hp]; exact List.mem_cons_of_mem _ hmem)

/-- The update callback keeps the invariant. -/
theorem inv_update_gui_thread {self panel : Nat} {st : State} {inst : Option Nat}
    {value : Rat} {rest : List Callback} {r : State × Bool} (hinv : PanelInv self panel st)
    (hp : st.pending = Callback._update_gui_thread inst value :: rest)
    (hr : _update_gui_thread { st with pending := rest } inst value = some r) :
    PanelInv self panel r.1 := by
  obtain ⟨pw, hpw, hbox, hpar, hvis⟩ := hinv.h_panel
  have hnd := hinv.h_distinct
  rw [hp] at hnd
  simp only [add_widgets, List.filterMap_cons] at hnd
  cases hel : State.element { st with pending := rest } inst with
  | none => simp [_update_gui_thread, hel] at hr
  | some e =>
    simp only [_update_gui_thread, hel, Option.some.injEq] at hr
    subst hr
    refine panelInv_step none hinv rfl ⟨pw, ?_, hbox, hpar, hvis⟩
      hinv.h_hbox ?_ hnd (keepsOrphans_set_fraction _ _ _ _) ?_ ?_
    · exact set_fraction_box _ _ _ _ _ hpw hbox
    · intro sw' iw' hmem
      rw [hp]; exact List.mem_cons_of_mem _ hmem
    · intro sw' hmem
      exact panelInv_no_null_add hinv sw' (by rw [hp]; exact List.mem_cons_of_mem _ hmem)
    · intro s inst' hmem
      exact hinv.h_destroys s inst' (by rw [hp]; exact List.mem_cons_of_mem _ hmem)

/-- A dispatch of the main context keeps the invariant. -/
theorem inv_iteration {self panel : Nat} {st st' : State} (hinv : PanelInv self panel st)
    (h : g_main_context_iteration st = some st') : PanelInv self panel st' := by
  unfold g_main_context_iteration at h
  cases hp : st.pending with
  | nil =>
    rw [hp] at h
    simp only [Option.some.injEq] at h
    rw [← h]; exact hinv
  | cons cb rest =>
    rw [hp] at h
    simp only [] at h
    cases hr : run_callback cb { st with pending := rest } with
    | none => rw [hr] at h; cases h
    | some r =>
      rw [hr] at h
      have hfalse : r.2 = false := callback_returns_false cb _ r hr
      obtain ⟨s, again⟩ := r
      simp only at hfalse
      subst hfalse
      simp only [Bool.false_eq_true, if_false, Option.some.injEq] at h
      subst h
      cases cb with
      | _added_gui_thread sw iw =>
        simp only [run_callback, Option.some.injEq] at hr
        have := (inv_added_gui_thread hinv hp).1
        rw [hr] at this
        exact this
      | _destroyed_gui_thread s' inst =>
        have hs : s' = self := hinv.h_destroys s' inst (by rw [hp]; exact List.mem_cons_self _ _)
        subst hs
        exact inv_destroyed_gui_thread hinv hp hr
      | _cancellable_gui_thread inst progress => exact inv_cancellable_gui_thread hinv hp hr
      | _update_gui_thread inst value => exact inv_update_gui_thread hinv hp hr

/-! ## C6: the invariant is kept by the proxy functions and set up by `gui_init` -/

theorem add_widgets_append (l₁ l₂ : List Callback) :
    add_widgets (l₁ ++ l₂) = add_widgets l₁ ++ add_widgets l₂ := by
  simp [add_widgets, List.filterMap_append]

theorem exists_of_mem_add_widgets {l : List Callback} {iw : Option Nat}
    (h : iw ∈ add_widgets l) : ∃ sw, Callback._added_gui_thread sw iw ∈ l := by
  unfold add_widgets at h
  rw [List.mem_filterMap] at h
  obtain ⟨cb, hcb, heq⟩ := h
  cases cb with
  | _added_gui_thread sw iw' =>
    simp only [Option.some.injEq] at heq
    subst heq
    exact ⟨sw, hcb⟩
  | _destroyed_gui_thread _ _ => cases heq
  | _cancellable_gui_thread _ _ => cases heq
  | _update_gui_thread _ _ => cases heq

theorem inv_malloc {self panel : Nat} {st : State} (hinv : PanelInv self panel st)
    (l : List Bool) : PanelInv self panel { st with malloc_results := l } :=
  ⟨hinv.h_module, hinv.h_panel, hinv.h_hbox, hinv.h_adds, hinv.h_distinct, hinv.h_destroys⟩

/-- Handing a callback other than an add callback keeps the invariant. -/
theorem inv_invoke {self panel : Nat} {st : State} (hinv : PanelInv self panel st)
    (cb : Callback) (hadd : ∀ sw iw, cb ≠ Callback._added_gui_thread sw iw)
    (hd : ∀ s inst, cb = Callback._destroyed_gui_thread s inst → s = self) :
    PanelInv self panel (g_main_context_invoke st cb) := by
  refine ⟨hinv.h_module, hinv.h_panel, hinv.h_hbox, ?_, ?_, ?_⟩
  · intro sw iw hmem
    simp only [g_main_context_invoke, List.mem_append, List.mem_singleton] at hmem
    rcases hmem with hmem | hmem
    · exact hinv.h_adds sw iw hmem
    · exact absurd hmem.symm (hadd sw iw)
  · simp only [g_main_context_invoke, add_widgets_append]
    have : add_widgets [cb] = [] := by
      cases cb with
      | _added_gui_thread sw iw => exact absurd rfl (hadd sw iw)
      | _destroyed_gui_thread _ _ => rfl
      | _cancellable_gui_thread _ _ => rfl
      | _update_gui_thread _ _ => rfl
    rw [this, List.append_nil]
    exact hinv.h_distinct
  · intro s inst hmem
    simp only [g_main_context_invoke, List.mem_append, List.mem_singleton] at hmem
    rcases hmem with hmem | hmem
    · exact hinv.h_destroys s inst hmem
    · exact hd s inst hmem.symm

theorem inv_destroyed {self panel : Nat} {st : State} (hinv : PanelInv self panel st)
    (inst : Option Nat) : PanelInv self panel (_lib_backgroundjobs_destroyed st self inst) := by
  simp only [_lib_backgroundjobs_destroyed, malloc]
  cases st.malloc_results.headD true
  · exact inv_malloc hinv _
  · refine inv_invoke (inv_malloc hinv _) _ ?_ ?_
    · intro sw iw h; cases h
    · intro s i h; cases h; rfl

theorem inv_cancellable {self panel : Nat} {st : State} (hinv : PanelInv self panel st)
    (inst : Option Nat) (progress : Nat) :
    PanelInv self panel (_lib_backgroundjobs_cancellable st self inst progress) := by
  simp only [_lib_backgroundjobs_cancellable, malloc]
  split
  · exact hinv
  · cases st.malloc_results.headD true
    · exact inv_malloc hinv _
    · refine inv_invoke (inv_malloc hinv _) _ ?_ ?_
      · intro sw iw h; cases h
      · intro s i h; cases h

theorem inv_updated {self panel : Nat} {st : State} (hinv : PanelInv self panel st)
    (inst : Option Nat) (value : Rat) :
    PanelInv self panel (_lib_backgroundjobs_updated st self inst value) := by
  simp only [_lib_backgroundjobs_updated, malloc]
  split
  · exact hinv
  · cases st.malloc_results.headD true
    · exact inv_malloc hinv _
    · refine inv_invoke (inv_malloc hinv _) _ ?_ ?_
      · intro sw iw h; cases h
      · intro s i h; cases h

theorem getElem?_append_singleton_some {α : Type} {l : List (Option α)} {a : Option α} {i : Nat}
    {e : α} (h : (l ++ [a])[i]? = some (some e)) : l[i]? = some (some e) ∨ (i = l.length ∧ a = some e) := by
  rw [List.getElem?_append] at h
  split at h
  · exact Or.inl h
  · rename_i hlt
    right
    have hi : i - l.length = 0 := by
      rcases Nat.eq_zero_or_pos (i - l.length) with h0 | h0
      · exact h0
      · have h1 : [a].length ≤ i - l.length := h0
        rw [List.getElem?_eq_none h1] at h; cases h
    rw [hi] at h
    simp only [List.getElem?_cons_zero, Option.some.injEq] at h
    exact ⟨by omega, h⟩

theorem inv_added {self panel : Nat} {st : State} (hinv : PanelInv self panel st)
    (bar : Bool) (msg : String) :
    PanelInv self panel (_lib_backgroundjobs_added st self bar msg).1 := by
  have hlt := panelInv_panel_lt hinv
  obtain ⟨pw, hpw, hbox, hpar, hvis⟩ := hinv.h_panel
  rcases added_cases st self bar msg with h | h | h <;> rw [h]
  · refine ⟨hinv.h_module, ⟨pw, ?_, hbox, hpar, hvis⟩, ?_, ?_, ?_, ?_⟩
    · simp only [added_state]
      rw [List.getElem?_append_left hlt]; exact hpw
    · intro i e hi
      simp only [added_state] at hi
      rcases getElem?_append_singleton_some hi with hold | ⟨_, hnew⟩
      · exact hinv.h_hbox i e hold
      · simp only [Option.some.injEq] at hnew
        rw [← hnew]
        simp only [ne_eq, Option.some.injEq]
        omega
    · intro sw iw hmem
      simp only [added_state, List.mem_append, List.mem_singleton] at hmem
      rcases hmem with hmem | hmem
      · obtain ⟨hsw, w, ww, hiw, hne, hww, hwpar⟩ := hinv.h_adds sw iw hmem
        refine ⟨hsw, w, ww, hiw, hne, ?_, hwpar⟩
        simp only [added_state]
        rw [List.getElem?_append_left (lt_of_getElem?_eq_some hww)]; exact hww
      · simp only [Callback._added_gui_thread.injEq] at hmem
        obtain ⟨hsw, hiw⟩ := hmem
        refine ⟨by rw [hsw]; exact hinv.h_module, st.widgets.length,
          { GtkWidget.create .event_box with
            name := some "background_job_eventbox", children := [st.widgets.length + 1] },
          hiw, by omega, ?_, rfl⟩
        simp only [added_state, getElem?_append_length, job_widgets, List.cons_append,
          List.getElem?_cons_zero]
    · simp only [added_state, add_widgets_append]
      have : add_widgets
          [Callback._added_gui_thread (st.module_widget self) (some st.widgets.length)]
          = [some st.widgets.length] := rfl
      rw [this]
      apply List.Nodup.append hinv.h_distinct (List.nodup_singleton _)
      intro a ha hb
      simp only [List.mem_singleton] at hb
      subst hb
      obtain ⟨sw, hsw⟩ := exists_of_mem_add_widgets ha
      exact panelInv_no_fresh_add hinv sw _ (Nat.le_refl _) hsw
    · intro s inst hmem
      simp only [added_state, List.mem_append, List.mem_singleton] at hmem
      rcases hmem with hmem | hmem
      · exact hinv.h_destroys s inst hmem
      · cases hmem
  · exact inv_malloc hinv _
  · refine ⟨hinv.h_module, hinv.h_panel, ?_, hinv.h_adds, hinv.h_distinct, hinv.h_destroys⟩
    intro i e hi
    rcases getElem?_append_singleton_some hi with hold | ⟨_, hnew⟩
    · exact hinv.h_hbox i e hold
    · cases hnew

theorem inv_free {self panel : Nat} {st : State} (hinv : PanelInv self panel st)
    (g : Option Nat) : PanelInv self panel (free st g) := by
  cases g with
  | none => exact hinv
  | some i =>
    refine ⟨hinv.h_module, hinv.h_panel, ?_, hinv.h_adds, hinv.h_distinct, hinv.h_destroys⟩
    intro j e hj
    simp only [free] at hj
    rw [List.getElem?_set] at hj
    split at hj
    · split at hj <;> cases hj
    · exact hinv.h_hbox j e hj

theorem inv_set_gui_data {self panel : Nat} {st : State} (hinv : PanelInv self panel st)
    (p : Nat) (g : Option Nat) : PanelInv self panel (dt_control_progress_set_gui_data st p g) :=
  ⟨hinv.h_module, hinv.h_panel, hinv.h_hbox, hinv.h_adds, hinv.h_distinct, hinv.h_destroys⟩

theorem inv_gui_init_loop {self panel : Nat} (l : List Nat) :
    ∀ {st : State}, PanelInv self panel st → PanelInv self panel (gui_init_loop self l st) := by
  induction l with
  | nil => intro st h; exact h
  | cons p rest ih =>
    intro st hinv
    simp only [gui_init_loop]
    apply ih
    apply inv_updated
    split
    · exact inv_cancellable (inv_set_gui_data (inv_added (inv_free hinv _) _ _) _ _) _ _
    · exact inv_set_gui_data (inv_added (inv_free hinv _) _ _) _ _

/-- The state of `gui_init` just before its loop. -/
theorem gui_init_eq (st : State) (self : Nat) :
    gui_init st self = gui_init_loop self st.list
      { st with
        widgets := st.widgets ++ [panel_widget],
        module_widget := Function.update st.module_widget self (some st.widgets.length),
        proxy := proxy_installed self } := by
  simp only [gui_init, gtk_box_new, g_object_new, Function.update_same,
    gtk_widget_set_no_show_all, gtk_container_set_border_width, modify_widget,
    modify_append_right_zero, List.modify_zero_cons, proxy_installed, panel_widget]

theorem inv_gui_init (st0 : State) (self : Nat) (hpending : st0.pending = [])
    (hwf : ∀ (i : Nat) (e : dt_lib_backgroundjob_element_t) (h : Nat),
      st0.elements[i]? = some (some e) → e.hbox = some h → h < st0.widgets.length) :
    PanelInv self st0.widgets.length (gui_init st0 self) := by
  rw [gui_init_eq]
  apply inv_gui_init_loop
  refine ⟨?_, ⟨panel_widget, ?_, ?_, ?_, ?_⟩, ?_, ?_, ?_, ?_⟩
  · simp only [Function.update_same]
  · simp only [getElem?_append_length, List.getElem?_cons_zero]
  · rfl
  · rfl
  · simp [GtkWidget.create, panel_widget]
  · intro i e hi heq
    have := hwf i e _ hi heq
    omega
  · intro sw iw hmem
    simp only [hpending] at hmem
    cases hmem
  · simp only [hpending, add_widgets, List.filterMap_nil, List.nodup_nil]
  · intro s inst hmem
    simp only [hpending] at hmem
    cases hmem

theorem inv_step {self panel : Nat} {st st' : State} (hinv : PanelInv self panel st)
    (ev : Event) (h : step self st ev = some st') : PanelInv self panel st' := by
  cases ev with
  | added b m =>
    simp only [step, Option.some.injEq] at h
    rw [← h]; exact inv_added hinv b m
  | destroyed i =>
    simp only [step, Option.some.injEq] at h
    rw [← h]; exact inv_destroyed hinv i
  | cancellable i p =>
    simp only [step, Option.some.injEq] at h
    rw [← h]; exact inv_cancellable hinv i p
  | updated i v =>
    simp only [step, Option.some.injEq] at h
    rw [← h]; exact inv_updated hinv i v
  | dispatch => exact inv_iteration hinv h

theorem inv_run {self panel : Nat} (evs : List Event) :
    ∀ {st st' : State}, PanelInv self panel st → run self st evs = some st' →
      PanelInv self panel st' := by
  induction evs with
  | nil =>
    intro st st' hinv h
    simp only [run, Option.some.injEq] at h
    rw [← h]; exact hinv
  | cons ev evs ih =>
    intro st st' hinv h
    simp only [run] at h
    cases hs : step self st ev with
    | none => rw [hs] at h; cases h
    | some s1 =>
      rw [hs] at h
      exact ih (inv_step hinv ev hs) h

theorem panel_shown_of_inv {self panel : Nat} {st : State} (hinv : PanelInv self panel st) :
    panel_visible st self = true ↔ panel_children st self ≠ [] := by
  obtain ⟨pw, hpw, _, _, hvis⟩ := hinv.h_panel
  simp only [panel_visible, panel_children, hinv.h_module, gtk_widget_get_visible,
    gtk_container_get_children, hpw]
  exact hvis

/-! ## C6 -/

theorem widgetsKept_refl (st : State) : WidgetsKept st st :=
  ⟨fun _ _ h => h, rfl⟩

theorem widgetsKept_trans {st st' st'' : State} (h1 : WidgetsKept st st')
    (h2 : WidgetsKept st' st'') : WidgetsKept st st'' :=
  ⟨fun i x h => h2.1 i x (h1.1 i x h), h2.2.trans h1.2⟩

theorem widgetsKept_of_only_hands_callback {st st' : State} (h : only_hands_callback st st') :
    WidgetsKept st st' :=
  ⟨fun i _ hx => (h.1 i (lt_of_getElem?_eq_some hx)).trans hx, h.2.2.1⟩

theorem widgetsKept_free (st : State) (g : Option Nat) : WidgetsKept st (free st g) := by
  cases g <;> exact widgetsKept_refl _

theorem widgetsKept_set_gui_data (st : State) (p : Nat) (g : Option Nat) :
    WidgetsKept st (dt_control_progress_set_gui_data st p g) :=
  ⟨fun _ _ h => h, rfl⟩

theorem widgetsKept_gui_init_loop (self : Nat) (l : List Nat) :
    ∀ st : State, WidgetsKept st (gui_init_loop self l st) := by
  induction l with
  | nil => intro st; exact widgetsKept_refl _
  | cons p rest ih =>
    intro st
    simp only [gui_init_loop]
    refine widgetsKept_trans ?_ (ih _)
    refine widgetsKept_trans ?_
      (widgetsKept_of_only_hands_callback (updated_only_hands_callback _ self _ _))
    have hadd : WidgetsKept st
        (dt_control_progress_set_gui_data
          (_lib_backgroundjobs_added (free st (dt_control_progress_get_gui_data st p)) self
            (dt_control_progress_has_progress_bar
              (free st (dt_control_progress_get_gui_data st p)) p)
            (dt_control_progress_get_message
              (free st (dt_control_progress_get_gui_data st p)) p)).1 p
          (_lib_backgroundjobs_added (free st (dt_control_progress_get_gui_data st p)) self
            (dt_control_progress_has_progress_bar
              (free st (dt_control_progress_get_gui_data st p)) p)
            (dt_control_progress_get_message
              (free st (dt_control_progress_get_gui_data st p)) p)).2) :=
      widgetsKept_trans
        (widgetsKept_trans (widgetsKept_free st _)
          (widgetsKept_of_only_hands_callback (added_only_hands_callback _ self _ _)))
        (widgetsKept_set_gui_data _ _ _)
    split
    · exact widgetsKept_trans hadd
        (widgetsKept_of_only_hands_callback (cancellable_only_hands_callback _ self _ _))
    · exact hadd

/-- The panel that `gui_init` leaves is hidden and empty. -/
theorem gui_init_panel (st0 : State) (self : Nat) :
    panel_visible (gui_init st0 self) self = false ∧
    panel_children (gui_init st0 self) self = [] := by
  rw [gui_init_eq]
  obtain ⟨hw, hm⟩ := widgetsKept_gui_init_loop self st0.list
    { st0 with
      widgets := st0.widgets ++ [panel_widget],
      module_widget := Function.update st0.module_widget self (some st0.widgets.length),
      proxy := proxy_installed self }
  have hp := hw st0.widgets.length panel_widget
    (by simp only [getElem?_append_length, List.getElem?_cons_zero])
  simp only [panel_visible, panel_children, hm, Function.update_same, gtk_widget_get_visible,
    gtk_container_get_children, hp]
  exact ⟨rfl, rfl⟩

/-- C6: start from a state with no callback pending and no element whose hbox
dangles past the widget table, and let `gui_init` create the panel: it is hidden
and empty.  Then after any sequence of proxy calls and main-context dispatches
(none of which dereferences a dead element) the panel is visible if and only if
it has at least one child.  Moreover, from any such state, a pending add
callback always runs and leaves the panel visible with a child, and a pending
destroy callback for a live element always runs and leaves the panel hidden
exactly when it has no child left. -/
theorem C6_panel_shown_iff_nonempty (st0 : State) (self : Nat) (evs : List Event) (st : State)
    (hpending : st0.pending = [])
    (hwf : ∀ (i : Nat) (e : dt_lib_backgroundjob_element_t) (h : Nat),
      st0.elements[i]? = some (some e) → e.hbox = some h → h < st0.widgets.length)
    (hrun : run self (gui_init st0 self) evs = some st) :
    (panel_visible (gui_init st0 self) self = false ∧
      panel_children (gui_init st0 self) self = []) ∧
    (panel_visible st self = true ↔ panel_children st self ≠ []) ∧
    (∀ sw iw rest, st.pending = Callback._added_gui_thread sw iw :: rest →
      ∃ st', g_main_context_iteration st = some st' ∧
        panel_visible st' self = true ∧ panel_children st' self ≠ []) ∧
    (∀ s inst rest e, st.pending = Callback._destroyed_gui_thread s inst :: rest →
      st.element inst = some e →
      ∃ st', g_main_context_iteration st = some st' ∧
        (panel_visible st' self = false ↔ panel_children st' self = [])) := by
  have hinv : PanelInv self st0.widgets.length st :=
    inv_run evs (inv_gui_init st0 self hpending hwf) hrun
  refine ⟨gui_init_panel st0 self, panel_shown_of_inv hinv, ?_, ?_⟩
  · intro sw iw rest hp
    refine ⟨(_added_gui_thread { st with pending := rest } sw iw).1, ?_,
      (inv_added_gui_thread hinv hp).2⟩
    simp only [g_main_context_iteration, hp, run_callback, _added_gui_thread,
      Bool.false_eq_true, if_false]
  · intro s inst rest e hp hel
    obtain ⟨i, hi, _⟩ := element_getElem? hel
    subst hi
    have hit : g_main_context_iteration st =
        some ({ st with
          pending := rest,
          widgets := destroyed_widgets st.widgets (st.module_widget s) e.widget,
          elements := (st.elements.modify
            (Option.map (fun e => { e with widget := none })) i).set i none }) := by
      have hel' : State.element { st with pending := rest } (some i) = some e := hel
      simp only [g_main_context_iteration, hp, run_callback,
        destroyed_gui_thread_eq _ s i e hel', Bool.false_eq_true, if_false]
    refine ⟨_, hit, ?_⟩
    have h := panel_shown_of_inv (inv_iteration hinv hit)
    revert h
    generalize panel_visible _ self = v
    generalize panel_children _ self = c
    intro h
    cases v with
    | false =>
      constructor
      · intro _
        by_contra hne
        exact absurd (h.2 hne) (by simp)
      · intro _; rfl
    | true =>
      constructor
      · intro hf; cases hf
      · intro he; exact absurd he (h.1 rfl)

/-- Witness of C6: on the empty state, after one job has been added and its
callback has run, the panel is visible and holds the job widget. -/
theorem C6_panel_shown_iff_nonempty_witness :
    State.empty.pending = [] ∧
    run 0 (gui_init State.empty 0) show_one_job = some shown_state ∧
    panel_visible shown_state 0 = true ∧
    (panel_visible shown_state 0 = true ↔ panel_children shown_state 0 ≠ []) :=
  ⟨rfl, by rfl, by rfl,
    (C6_panel_shown_iff_nonempty State.empty 0 show_one_job shown_state rfl
      (by intro i e h hi; simp [State.empty] at hi) (by rfl)).2.1⟩

/-! ## C4: the loop of `gui_init` -/

theorem gui_init_loop_cons (self : Nat) (p : Nat) (rest : List Nat) (st : State) :
    gui_init_loop self (p :: rest) st = gui_init_loop self rest (gui_init_step self st p) := rfl

theorem headD_of_all_true {l : List Bool} (h : ∀ b ∈ l, b = true) : l.headD true = true := by
  cases l with
  | nil => rfl
  | cons a l => exact h a (List.mem_cons_self _ _)

theorem tail_all_true {l : List Bool} (h : ∀ b ∈ l, b = true) : ∀ b ∈ l.tail, b = true :=
  fun b hb => h b (List.mem_of_mem_tail hb)

/-- One iteration of the loop of `gui_init` when every allocation succeeds. -/
theorem gui_init_step_spec (self : Nat) (s : State) (p : Nat)
    (hm : ∀ b ∈ s.malloc_results, b = true) :
    (gui_init_step self s p).widgets =
      s.widgets ++ job_widgets s.widgets.length (s.progress p).has_progress_bar
        (s.progress p).message ∧
    (gui_init_step self s p).elements =
      (free s (s.progress p).gui_data).elements ++
        [some { widget := some s.widgets.length,
                progressbar :=
                  if (s.progress p).has_progress_bar then some (s.widgets.length + 4) else none,
                hbox := some (s.widgets.length + 2) }] ∧
    (gui_init_step self s p).module_widget = s.module_widget ∧
    (gui_init_step self s p).running = s.running ∧
    (gui_init_step self s p).list = s.list ∧
    (gui_init_step self s p).progress =
      Function.update s.progress p { s.progress p with gui_data := some s.elements.length } ∧
    (gui_init_step self s p).pending =
      s.pending ++ job_callbacks (s.module_widget self) s.running (s.progress p) p
        s.elements.length s.widgets.length ∧
    (∀ b ∈ (gui_init_step self s p).malloc_results, b = true) := by
  have hfree_m : (free s (s.progress p).gui_data).malloc_results = s.malloc_results := by
    cases (s.progress p).gui_data <;> rfl
  have hfree_w : (free s (s.progress p).gui_data).widgets = s.widgets := by
    cases (s.progress p).gui_data <;> rfl
  have hfree_l : (free s (s.progress p).gui_data).elements.length = s.elements.length := by
    cases (s.progress p).gui_data <;> simp [free]
  have hfree_p : (free s (s.progress p).gui_data).progress = s.progress := by
    cases (s.progress p).gui_data <;> rfl
  have hfree_pe : (free s (s.progress p).gui_data).pending = s.pending := by
    cases (s.progress p).gui_data <;> rfl
  have hfree_mw : (free s (s.progress p).gui_data).module_widget = s.module_widget := by
    cases (s.progress p).gui_data <;> rfl
  have hfree_r : (free s (s.progress p).gui_data).running = s.running := by
    cases (s.progress p).gui_data <;> rfl
  have hfree_li : (free s (s.progress p).gui_data).list = s.list := by
    cases (s.progress p).gui_data <;> rfl
  have h1 := headD_of_all_true hm
  have h2 := headD_of_all_true (tail_all_true hm)
  have h3 := headD_of_all_true (tail_all_true (tail_all_true hm))
  have h4 := headD_of_all_true (tail_all_true (tail_all_true (tail_all_true hm)))
  have hm2 := tail_all_true (tail_all_true hm)
  have hm3 := tail_all_true hm2
  have hm4 := tail_all_true hm3
  simp only [gui_init_step, dt_control_progress_get_gui_data,
    dt_control_progress_has_progress_bar, dt_control_progress_get_message]
  rw [added_ok _ self _ _ (by rw [hfree_m]; exact h1) (by rw [hfree_m]; exact h2)]
  simp only [dt_control_progress_set_gui_data, dt_control_progress_cancellable,
    dt_control_progress_get_progress, added_state, hfree_m, hfree_w, hfree_l, hfree_p, hfree_pe,
    hfree_mw, hfree_r, hfree_li, Function.update_same,
    _lib_backgroundjobs_cancellable, _lib_backgroundjobs_updated, malloc, g_main_context_invoke,
    job_callbacks]
  cases hc : (s.progress p).cancellable <;> cases hr : s.running <;>
  · simp only [h3, h4, Bool.not_true, Bool.not_false, Bool.false_eq_true, if_false, if_true,
      Bool.and_true, Bool.and_false, Bool.true_and, Bool.false_and, List.append_nil,
      List.append_assoc, List.singleton_append, List.cons_append, List.nil_append, true_and,
      Function.update_same]
    first | exact hm2 | exact hm3 | exact hm4

theorem sameJob_refl (a : dt_progress_t) : SameJob a a := ⟨rfl, rfl, rfl, rfl⟩

theorem sameJob_trans {a b c : dt_progress_t} (h1 : SameJob a b) (h2 : SameJob b c) :
    SameJob a c :=
  ⟨h1.1.trans h2.1, h1.2.1.trans h2.2.1, h1.2.2.1.trans h2.2.2.1, h1.2.2.2.trans h2.2.2.2⟩

theorem expected_callbacks_congr (panel : Option Nat) (running : Bool)
    (prog prog' : Nat → dt_progress_t) (hs : ∀ q, SameJob (prog' q) (prog q)) (l : List Nat) :
    ∀ e w, expected_callbacks panel running prog' e w l =
      expected_callbacks panel running prog e w l := by
  induction l with
  | nil => intro e w; rfl
  | cons p rest ih =>
    intro e w
    obtain ⟨h1, _, h3, h4⟩ := hs p
    simp only [expected_callbacks, job_callbacks, h1, h3, h4, ih]

theorem job_widgets_length (n : Nat) (bar : Bool) (msg : String) :
    (job_widgets n bar msg).length = if bar then 5 else 4 := by
  cases bar <;> rfl

theorem has_kind_mono {ws ws' : List GtkWidget}
    (h : ∀ (i : Nat) (x : GtkWidget), ws[i]? = some x → ws'[i]? = some x)
    (w : Option Nat) (k : WidgetKind) (hk : has_kind ws w k = true) : has_kind ws' w k = true := by
  cases w with
  | none => cases hk
  | some i =>
    simp only [has_kind] at hk ⊢
    cases hx : ws[i]? with
    | none => rw [hx] at hk; cases hk
    | some x =>
      rw [hx] at hk
      rw [h i x hx]
      exact hk

theorem shows_job_mono {ws ws' : List GtkWidget}
    (h : ∀ (i : Nat) (x : GtkWidget), ws[i]? = some x → ws'[i]? = some x)
    (e : dt_lib_backgroundjob_element_t) (pr : dt_progress_t) (hs : shows_job ws e pr) :
    shows_job ws' e pr := by
  obtain ⟨h1, h2, h3⟩ := hs
  refine ⟨has_kind_mono h _ _ h1, ?_, h3⟩
  simp only [holds_label, Bool.and_eq_true, List.any_eq_true] at h2 ⊢
  obtain ⟨hb, l, hl, hlab⟩ := h2
  refine ⟨has_kind_mono h _ _ hb, l, ?_, has_kind_mono h _ _ hlab⟩
  cases hh : e.hbox with
  | none => rw [hh] at hb; cases hb
  | some i =>
    rw [hh] at hl hb
    simp only [gtk_container_get_children] at hl ⊢
    simp only [has_kind] at hb
    cases hx : ws[i]? with
    | none => rw [hx] at hb; cases hb
    | some x =>
      rw [hx] at hl
      rw [h i x hx]
      exact hl

theorem shows_job_added (ws : List GtkWidget) (pr : dt_progress_t) :
    shows_job (ws ++ job_widgets ws.length pr.has_progress_bar pr.message)
      { widget := some ws.length,
        progressbar := if pr.has_progress_bar then some (ws.length + 4) else none,
        hbox := some (ws.length + 2) } pr := by
  cases hb : pr.has_progress_bar <;>
  · simp only [shows_job, job_widgets, has_kind, holds_label, gtk_container_get_children,
      getElem?_append_add, getElem?_append_length, GtkWidget.create, List.getElem?_cons_zero,
      List.getElem?_cons_succ, List.cons_append, List.nil_append, List.append_nil,
      Bool.false_eq_true, if_false, if_true, List.any_cons, List.any_nil]
    simp [hb]

theorem free_elements_length (s : State) (g : Option Nat) :
    (free s g).elements.length = s.elements.length := by
  cases g <;> simp [free]

theorem free_elements_getElem? (s : State) (g : Option Nat) (i : Nat) (hg : g ≠ some i) :
    (free s g).elements[i]? = s.elements[i]? := by
  cases g with
  | none => rfl
  | some j =>
    have hji : j ≠ i := fun h => hg (by rw [h])
    simp only [free]
    rw [List.getElem?_set_ne hji]

/-- The loop of `gui_init` when every allocation succeeds and the gui_data of the
entries are addresses below the end of the element table. -/
theorem gui_init_loop_spec (self : Nat) (l : List Nat) :
    ∀ s : State, (∀ b ∈ s.malloc_results, b = true) →
      (∀ p ∈ l, ∀ g, (s.progress p).gui_data = some g → g < s.elements.length) →
      LoopSpec self l s (gui_init_loop self l s) := by
  induction l with
  | nil =>
    intro s _ _
    exact ⟨rfl, rfl, rfl, rfl, by simp [expected_callbacks, gui_init_loop], fun _ _ h => h,
      fun _ => sameJob_refl _, fun _ _ => rfl, fun _ _ h _ => h,
      fun p hp => absurd hp (List.not_mem_nil p)⟩
  | cons p rest ih =>
    intro s hm hg
    obtain ⟨hw, he, hmw, hr, hl, hpr, hpe, hm1⟩ := gui_init_step_spec self s p hm
    rw [gui_init_loop_cons]
    have hlen1 : (gui_init_step self s p).elements.length = s.elements.length + 1 := by
      rw [he, List.length_append, free_elements_length]; rfl
    have hwlen1 : (gui_init_step self s p).widgets.length =
        s.widgets.length + if (s.progress p).has_progress_bar then 5 else 4 := by
      rw [hw, List.length_append, job_widgets_length]
    have hsame1 : ∀ q, SameJob ((gui_init_step self s p).progress q) (s.progress q) := by
      intro q
      rw [hpr]
      by_cases hq : q = p
      · subst hq; rw [Function.update_same]; exact ⟨rfl, rfl, rfl, rfl⟩
      · rw [Function.update_noteq hq]; exact sameJob_refl _
    have hgd1 : ∀ q, q ≠ p → ((gui_init_step self s p).progress q) = s.progress q := by
      intro q hq
      rw [hpr, Function.update_noteq hq]
    have hgdp : ((gui_init_step self s p).progress p).gui_data = some s.elements.length := by
      rw [hpr, Function.update_same]
    have hg1 : ∀ q ∈ rest, ∀ g, ((gui_init_step self s p).progress q).gui_data = some g →
        g < (gui_init_step self s p).elements.length := by
      intro q hq g hgq
      rw [hlen1]
      by_cases hqp : q = p
      · subst hqp
        rw [hgdp] at hgq
        cases hgq
        exact Nat.lt_succ_self _
      · rw [hgd1 q hqp] at hgq
        exact Nat.lt_succ_of_lt (hg q (List.mem_cons_of_mem _ hq) g hgq)
    have ih1 := ih (gui_init_step self s p) hm1 hg1
    have hwk1 : ∀ (i : Nat) (x : GtkWidget), s.widgets[i]? = some x →
        (gui_init_step self s p).widgets[i]? = some x := by
      intro i x hx
      rw [hw, List.getElem?_append_left (lt_of_getElem?_eq_some hx)]; exact hx
    refine ⟨?_, ?_, ?_, ?_, ?_, ?_, ?_, ?_, ?_, ?_⟩
    · rw [ih1.h_list, hl]
    · rw [ih1.h_running, hr]
    · rw [ih1.h_module, hmw]
    · rw [ih1.h_length, hlen1, List.length_cons]; omega
    · rw [ih1.h_pending, hpe, hmw, hr, hlen1, hwlen1,
        expected_callbacks_congr _ _ _ _ hsame1, List.append_assoc]
      rfl
    · intro i x hx
      exact ih1.h_widgets i x (hwk1 i x hx)
    · intro q
      exact sameJob_trans (ih1.h_same q) (hsame1 q)
    · intro q hq
      simp only [List.mem_cons, not_or] at hq
      rw [ih1.h_other q hq.2, hgd1 q hq.1]
    · intro i e hi hne
      have hilt := lt_of_getElem?_eq_some hi
      apply ih1.h_elements i e
      · rw [he, List.getElem?_append_left (by rw [free_elements_length]; exact hilt),
          free_elements_getElem? _ _ _ (hne p (List.mem_cons_self _ _))]
        exact hi
      · intro q hq
        by_cases hqp : q = p
        · subst hqp
          rw [hgdp]
          intro h; cases h; exact absurd hilt (Nat.lt_irrefl _)
        · rw [hgd1 q hqp]
          exact hne q (List.mem_cons_of_mem _ hq)
    · intro p' hp'
      by_cases hrest : p' ∈ rest
      · obtain ⟨i, hi, hgd, e, hel, hsj⟩ := ih1.h_entries p' hrest
        refine ⟨i + 1, by simpa using hi, ?_, e, ?_, ?_⟩
        · rw [hgd, hlen1]; congr 1; omega
        · rw [hlen1] at hel
          have : s.elements.length + (i + 1) = s.elements.length + 1 + i := by omega
          rw [this]; exact hel
        · obtain ⟨h1, h2, h3⟩ := hsj
          obtain ⟨_, hmsg, hbar, _⟩ := hsame1 p'
          exact ⟨h1, by rw [← hmsg]; exact h2, by rw [← hbar]; exact h3⟩
      · have hpp : p' = p := by
          rcases List.mem_cons.1 hp' with h | h
          · exact h
          · exact absurd h hrest
        subst hpp
        refine ⟨0, List.getElem?_cons_zero, ?_,
          { widget := some s.widgets.length,
            progressbar := if (s.progress p').has_progress_bar
              then some (s.widgets.length + 4) else none,
            hbox := some (s.widgets.length + 2) }, ?_, ?_⟩
        · rw [ih1.h_other p' hrest, hgdp]; rfl
        · have hnew : (gui_init_step self s p').elements[s.elements.length]? =
              some (some { widget := some s.widgets.length,
                           progressbar := if (s.progress p').has_progress_bar
                             then some (s.widgets.length + 4) else none,
                           hbox := some (s.widgets.length + 2) }) := by
            rw [he]
            have := getElem?_append_length (free s (s.progress p').gui_data).elements
              [some ({ widget := some s.widgets.length,
                       progressbar := if (s.progress p').has_progress_bar
                         then some (s.widgets.length + 4) else none,
                       hbox := some (s.widgets.length + 2) } : dt_lib_backgroundjob_element_t)]
            rw [free_elements_length] at this
            rw [this]; rfl
          have hkeep := ih1.h_elements s.elements.length _ hnew (by
            intro q hq
            have hqp : q ≠ p' := fun h => hrest (h ▸ hq)
            rw [hgd1 q hqp]
            intro h
            have := hg q (List.mem_cons_of_mem _ hq) _ h
            omega)
          rw [Nat.add_zero]
          exact hkeep
        · apply shows_job_mono ih1.h_widgets
          rw [hw]
          exact shows_job_added s.widgets (s.progress p')

/-! ## C4 -/

/-- C4 (amended): provided every allocation succeeds (and every gui_data stored in
the list is NULL or an address below the end of the element table), `gui_init`
leaves the progress list as it is and creates exactly one element per list
entry, at consecutive addresses in list order; every progress of the list gets
as gui_data the element created for (the last occurrence of) it, which is live
and shows that progress's own message and has a progress bar exactly when that
progress has one; the callbacks handed to the main context are, entry by entry
in list order, the add callback of the new entry and, only when the control is
running, the cancel-button callback if and only if the progress is cancellable
and the update callback with the progress's current value; no other field of a
progress object changes. -/
theorem C4_gui_init_adds_list (st : State) (self : Nat)
    (hm : ∀ b ∈ st.malloc_results, b = true)
    (hg : ∀ p ∈ st.list, ∀ g, (st.progress p).gui_data = some g → g < st.elements.length) :
    (gui_init st self).list = st.list ∧
    (gui_init st self).elements.length = st.elements.length + st.list.length ∧
    (∀ p ∈ st.list, ∃ i, st.list[i]? = some p ∧
      dt_control_progress_get_gui_data (gui_init st self) p = some (st.elements.length + i) ∧
      ∃ e, (gui_init st self).element (some (st.elements.length + i)) = some e ∧
        shows_job (gui_init st self).widgets e (st.progress p)) ∧
    (gui_init st self).pending = st.pending ++
      expected_callbacks (some st.widgets.length) st.running st.progress st.elements.length
        (st.widgets.length + 1) st.list ∧
    (∀ q, SameJob ((gui_init st self).progress q) (st.progress q)) ∧
    (∀ q, q ∉ st.list → (gui_init st self).progress q = st.progress q) := by
  have hspec := gui_init_loop_spec self st.list
    { st with
      widgets := st.widgets ++ [panel_widget],
      module_widget := Function.update st.module_widget self (some st.widgets.length),
      proxy := proxy_installed self } hm hg
  rw [← gui_init_eq] at hspec
  refine ⟨hspec.h_list, hspec.h_length, ?_, ?_, hspec.h_same, hspec.h_other⟩
  · intro p hp
    obtain ⟨i, hi, hgd, e, hel, hsj⟩ := hspec.h_entries p hp
    refine ⟨i, hi, hgd, e, ?_, hsj⟩
    simp only [State.element]
    rw [hel]; rfl
  · have := hspec.h_pending
    simp only [Function.update_same, List.length_append, List.length_singleton] at this
    exact this

/-- Witness of C4 on the state with two listed jobs. -/
theorem C4_gui_init_adds_list_witness :
    (gui_init two_jobs_state 0).list = [7, 8] ∧
    (gui_init two_jobs_state 0).elements.length = 2 ∧
    dt_control_progress_get_gui_data (gui_init two_jobs_state 0) 7 = some 0 ∧
    dt_control_progress_get_gui_data (gui_init two_jobs_state 0) 8 = some 1 ∧
    (gui_init two_jobs_state 0).pending = two_jobs_state.pending ++
      expected_callbacks (some two_jobs_state.widgets.length) two_jobs_state.running
        two_jobs_state.progress two_jobs_state.elements.length
        (two_jobs_state.widgets.length + 1) two_jobs_state.list :=
  ⟨by rfl, by rfl, by rfl, by rfl,
    (C4_gui_init_adds_list two_jobs_state 0 (by intro b hb; cases hb)
      (by intro p _ g hgd; cases hgd)).2.2.2.1⟩

/-- Counterexample to C4 as stated.  First state: progress 7 is listed and the
first allocation fails; `gui_init` keeps the list but creates no element and
leaves the gui_data of progress 7 NULL (the update it hands to the main context
is for the NULL element).  Second state: both allocations succeed
but the control is not running; only the two add callbacks are handed to the
main context, no cancel button is requested for the cancellable progress 8 and
no update is issued. -/
theorem C4_counterexample :
    ((gui_init one_job_listed_oom_state 0).list = [7] ∧
      dt_control_progress_get_gui_data (gui_init one_job_listed_oom_state 0) 7 = none ∧
      (gui_init one_job_listed_oom_state 0).elements = [] ∧
      (gui_init one_job_listed_oom_state 0).pending = [Callback._update_gui_thread none 0]) ∧
    (dt_control_progress_cancellable two_jobs_stopped_state 8 = true ∧
      (gui_init two_jobs_stopped_state 0).pending =
        [Callback._added_gui_thread (some 0) (some 1),
         Callback._added_gui_thread (some 0) (some 6)]) := by
  refine ⟨⟨by rfl, by rfl, by rfl, by rfl⟩, by rfl, by rfl⟩


end Backgroundjobs
